import Mathlib

/-!
Verification development for the citePY citation generator.

Shallow embedding of the core pipeline of the repository:
  app/data_fetcher.py   (identifier classification, multi-source aggregation)
  app/csl_converter.py  (canonical CSL-JSON record construction)
  app/citation_styles.py (style-name resolution for rendering)

Python strings are modelled as Lean String / List Char.  The regular
expression character class \d (resp. \s, \w) is modelled by the
corresponding ASCII predicate Char.isDigit (resp. Char.isWhitespace,
letters, digits and underscore); the Unicode extensions of the Python
classes are immaterial to every statement below.  Provider payloads
arrive as JSON; they are modelled by typed shapes whose fields mirror
exactly the keys the source reads, with Option for keys the source
itself treats as optional, and with lists that may be empty.  Python
operations that can raise on such data (indexing [0] and [-1]) are
modelled in the Except monad; network requests are modelled by passing
each provider response as an Option argument (none = request failed,
per fetch_from_api which converts every exception to None).
-/

/-! # Python string helpers -/

/-- Python list indexing lst[0]: raises IndexError on an empty list. -/
def pyIndex0 : List α → Except String α
  | [] => Except.error "IndexError"
  | a :: _ => Except.ok a

/-- Python list indexing lst[-1]: raises IndexError on an empty list. -/
def pyLast : List α → Except String α
  | [] => Except.error "IndexError"
  | a :: as => Except.ok ((a :: as).getLast (by simp))

/-- Python list comprehension over an Except-valued body: elements are
processed left to right and the first exception propagates. -/
def mapExcept (f : α → Except String β) : List α → Except String (List β)
  | [] => Except.ok []
  | x :: xs => do
      let y ← f x
      let ys ← mapExcept f xs
      Except.ok (y :: ys)

theorem length_dropWhile_le (p : α → Bool) (l : List α) :
    (l.dropWhile p).length ≤ l.length := by
  induction l with
  | nil => simp [List.dropWhile]
  | cons a as ih =>
      by_cases h : p a
      · simp [List.dropWhile, h]; omega
      · simp [List.dropWhile, h]

/-- Python str.split() with no argument, on a list of characters: split
on runs of whitespace, with no empty words.  The recursion is paced by a
fuel argument equal to the list length so that the definition reduces by
structural recursion; the fuel never runs out because each step consumes
at least one character. -/
def splitWsAux : Nat → List Char → List (List Char)
  | 0, _ => []
  | _, [] => []
  | fuel + 1, c :: rest =>
    if c.isWhitespace then splitWsAux fuel rest
    else (c :: rest).takeWhile (fun x => !x.isWhitespace) ::
         splitWsAux fuel (rest.dropWhile (fun x => !x.isWhitespace))

/-- Python str.split() with no argument, on a list of characters. -/
def splitWsL (l : List Char) : List (List Char) := splitWsAux l.length l

/-- Python str.split() with no argument. -/
def pySplitWs (s : String) : List String :=
  (splitWsL s.toList).map (fun l => String.mk l)

/-- The Python membership test of a character in a string. -/
def pyContains (s : String) (c : Char) : Bool := s.toList.contains c

/-- Python str.strip() on a list of characters: drop leading and trailing
whitespace. -/
def pyStripL (l : List Char) : List Char :=
  (((l.dropWhile Char.isWhitespace).reverse.dropWhile Char.isWhitespace)).reverse

/-- Python str.strip(). -/
def pyStrip (s : String) : String :=
  String.mk (pyStripL s.toList)

/-- Python str.split(sep) with a one-character separator: keeps empty
segments, and yields one empty segment on the empty string. -/
def pySplitOn (s : String) (sep : Char) : List String :=
  (s.toList.splitOn sep).map (fun l => String.mk l)

/-- First match of the regular expression \d\d\d\d in a character list
(re.search of four consecutive digits), returning the matched text; the
fuel argument equals the list length and makes the recursion
structural. -/
def findYearAux : Nat → List Char → Option String
  | fuel + 1, a :: b :: c :: d :: rest =>
      if a.isDigit && b.isDigit && c.isDigit && d.isDigit then
        some (String.mk [a, b, c, d])
      else findYearAux fuel (b :: c :: d :: rest)
  | _, _ => none

/-- First match of four consecutive digits in a character list. -/
def findYearL (l : List Char) : Option String := findYearAux l.length l

/-- re.search of four consecutive digits in a string; the year-extraction
pattern used for publish dates in data_fetcher.py. -/
def findYear (s : String) : Option String := findYearL s.toList

/-- Python dict lookup in a literal table (dict.get with no default). -/
def lookupStr : List (String × String) → String → Option String
  | [], _ => none
  | (k, v) :: rest, t => if t = k then some v else lookupStr rest t

theorem lookupStr_mem_values {table : List (String × String)} {t v : String}
    (h : lookupStr table t = some v) : v ∈ table.map Prod.snd := by
  induction table with
  | nil => simp [lookupStr] at h
  | cons kv rest ih =>
      obtain ⟨k, w⟩ := kv
      by_cases hk : t = k
      · simp [lookupStr, hk] at h
        simp [h]
      · simp [lookupStr, hk] at h
        simpa using Or.inr (ih h)

theorem lookupStr_eq_none_of_not_mem {table : List (String × String)} {t : String}
    (h : t ∉ table.map Prod.fst) : lookupStr table t = none := by
  induction table with
  | nil => rfl
  | cons kv rest ih =>
      obtain ⟨k, w⟩ := kv
      rw [List.map_cons] at h
      have hk : t ≠ k := fun e => h (e ▸ List.mem_cons_self _ _)
      have h2 : t ∉ rest.map Prod.fst := fun m => h (List.mem_cons_of_mem _ m)
      simp [lookupStr, hk, ih h2]

/-! # Identifier classifier (data_fetcher.py lines 52-134) -/

/-- Characters accepted by the tail class of DOI_PATTERN,
[-._;()/:A-Z0-9] under re.IGNORECASE. -/
def doiTailChar (c : Char) : Bool :=
  c = '-' || c = '.' || c = '_' || c = ';' || c = '(' || c = ')' ||
  c = '/' || c = ':' || (('A' ≤ c && c ≤ 'Z') || ('a' ≤ c && c ≤ 'z')) || c.isDigit

/-- The part of DOI_PATTERN after the literal prefix: four to nine
digits, a slash, then one or more characters of the tail class.  Greedy
matching of the digit run needs no backtracking because no digit can
satisfy the slash position. -/
def doiRestOk (rest : List Char) : Bool :=
  decide (4 ≤ (rest.takeWhile Char.isDigit).length) &&
  decide ((rest.takeWhile Char.isDigit).length ≤ 9) &&
  (match rest.dropWhile Char.isDigit with
   | c :: tail => c = '/' && !tail.isEmpty && tail.all doiTailChar
   | [] => false)

/-- DOI_PATTERN: full anchored match of 10\.\d{4,9}/[-._;()/:A-Z0-9]+
with re.IGNORECASE (data_fetcher.py line 52, used by is_valid_doi via
re.match with the trailing dollar anchor). -/
def isValidDoiL (l : List Char) : Bool :=
  match l with
  | c1 :: c2 :: c3 :: rest => c1 = '1' && c2 = '0' && c3 = '.' && doiRestOk rest
  | _ => false

/-- is_valid_doi (data_fetcher.py lines 79-89). -/
def is_valid_doi (s : String) : Bool := isValidDoiL s.toList

/-- The character filter of re.sub applied inside is_valid_isbn:
remove every hyphen and whitespace character. -/
def isbnKeepChar (c : Char) : Bool := !(c = '-' || c.isWhitespace)

/-- is_valid_isbn on a character list (data_fetcher.py lines 91-116):
strip hyphens and whitespace, then accept 9 digits plus a digit or X
(case-insensitive), or 13 digits. -/
def isValidIsbnL (l : List Char) : Bool :=
  let isbn := l.filter isbnKeepChar
  if isbn.length = 10 then
    isbn.dropLast.all Char.isDigit &&
      (match isbn.getLast? with
       | some c => c.toUpper = 'X' || c.isDigit
       | none => false)
  else if isbn.length = 13 then
    isbn.all Char.isDigit
  else
    false

/-- is_valid_isbn (data_fetcher.py lines 91-116). -/
def is_valid_isbn (s : String) : Bool := isValidIsbnL s.toList

/-- The test re.match of one or more digits followed by a hyphen or
whitespace character, used by clean_identifier to decide whether to strip
separators (data_fetcher.py line 74).  Backtracking is immaterial because
no digit belongs to the separator class. -/
def startsDigitsThenSep (l : List Char) : Bool :=
  !(l.takeWhile Char.isDigit).isEmpty &&
  (match l.dropWhile Char.isDigit with
   | c :: _ => c = '-' || c.isWhitespace
   | [] => false)

/-- Whether the text doi.org/ occurs in the list with at least one
character after it (the re.search in clean_identifier; the match group is
everything after the first such occurrence).  Newlines are not treated
specially, which is immaterial for every statement below. -/
def findAfterDoiOrg : List Char → Option (List Char)
  | [] => none
  | c :: rest =>
      if "doi.org/".toList.isPrefixOf (c :: rest) && !((c :: rest).drop 8).isEmpty then
        some ((c :: rest).drop 8)
      else findAfterDoiOrg rest

/-- The membership test of the text doi.org/ in a string
(clean_identifier line 68). -/
def containsDoiOrg : List Char → Bool
  | [] => false
  | c :: rest =>
      "doi.org/".toList.isPrefixOf (c :: rest) || containsDoiOrg rest

/-- clean_identifier on a character list (data_fetcher.py lines 56-77):
extract the DOI from a resolver URL, strip hyphens and whitespace when the
string begins with digits followed by a separator, then strip surrounding
whitespace. -/
def cleanIdL (l : List Char) : List Char :=
  let l1 :=
    if "http://".toList.isPrefixOf l || "https://".toList.isPrefixOf l then
      if containsDoiOrg l then
        match findAfterDoiOrg l with
        | some r => r
        | none => l
      else l
    else l
  let l2 := if startsDigitsThenSep l1 then l1.filter isbnKeepChar else l1
  pyStripL l2

/-- clean_identifier (data_fetcher.py lines 56-77). -/
def clean_identifier (s : String) : String := String.mk (cleanIdL s.toList)

/-- identify_identifier_type (data_fetcher.py lines 118-134): clean, then
check the DOI pattern before the ISBN pattern. -/
def identify_identifier_type (s : String) : Option String :=
  let c := cleanIdL s.toList
  if isValidDoiL c then some "doi"
  else if isValidIsbnL c then some "isbn"
  else none

/-- The same classifier with the two validity checks performed in the
opposite order; used to state that the classification result does not
depend on the check order. -/
def identifyIsbnFirst (s : String) : Option String :=
  let c := cleanIdL s.toList
  if isValidIsbnL c then some "isbn"
  else if isValidDoiL c then some "doi"
  else none

/-! # Data model of the raw-metadata bag and provider payloads -/

/-- One entry of a date-parts list: Crossref supplies integers while the
year-extraction paths of the aggregator store strings, matching the mixed
content of the Python dictionaries. -/
inductive DPart where
  | int (n : Int)
  | str (s : String)
deriving DecidableEq, Repr

/-- A CSL date value, a dictionary with a date-parts key. -/
structure DateVal where
  dateParts : List (List DPart)
deriving DecidableEq, Repr

/-- An author entry: a dictionary that may carry family and given keys. -/
structure Author where
  family : Option String := none
  given : Option String := none
deriving DecidableEq, Repr

/-- The message object of a Crossref response, restricted to the keys the
source reads.  Every field the code guards with a membership test is an
Option; list-valued fields may be empty, as in JSON. -/
structure CrossrefMsg where
  title : Option (List String) := none
  author : Option (List Author) := none
  publishedPrint : Option DateVal := none
  publishedOnline : Option DateVal := none
  created : Option DateVal := none
  publisher : Option String := none
  type_ : Option String := none
  containerTitle : Option (List String) := none
  volume : Option String := none
  issue : Option String := none
  page : Option String := none
  ISSN : Option (List String) := none
  abstract : Option String := none
deriving DecidableEq, Repr

/-- One element of the titles array of a DataCite attributes object. -/
structure DCTitle where
  title : String
deriving DecidableEq, Repr

/-- One element of the creators array of a DataCite attributes object;
the code reads both names with .get and an empty default. -/
structure DCCreator where
  givenName : Option String := none
  familyName : Option String := none
deriving DecidableEq, Repr

/-- One element of the dates array of a DataCite attributes object. -/
structure DCDate where
  dateType : String
  date : String
deriving DecidableEq, Repr

/-- The attributes object of a DataCite response. -/
structure DCAttrs where
  titles : Option (List DCTitle) := none
  creators : Option (List DCCreator) := none
  dates : Option (List DCDate) := none
deriving DecidableEq, Repr

/-- The best_oa_location object of an Unpaywall response; url is read
with .get and may be absent. -/
structure OALoc where
  url : Option String := none
deriving DecidableEq, Repr

/-- An Unpaywall response.  best_oa_location distinguishes key absent
(outer none) from a null or falsy value (inner none), matching the
truthiness guard in the source. -/
structure Unpaywall where
  is_oa : Option Bool := none
  best_oa_location : Option (Option OALoc) := none
deriving DecidableEq, Repr

/-- An author entry of an Open Library book record; name is read with
.get and an empty default. -/
structure OLAuthor where
  name : Option String := none
deriving DecidableEq, Repr

/-- A publisher entry of an Open Library book record. -/
structure OLPublisher where
  name : String
deriving DecidableEq, Repr

/-- A publish-place entry of an Open Library book record. -/
structure OLPlace where
  name : String
deriving DecidableEq, Repr

/-- The book record stored under the ISBN key of an Open Library
response, restricted to the keys the source reads. -/
structure OLBook where
  title : Option String := none
  authors : Option (List OLAuthor) := none
  publishers : Option (List OLPublisher) := none
  publish_date : Option String := none
  number_of_pages : Option Int := none
  edition_name : Option String := none
  url : Option String := none
  publish_places : Option (List OLPlace) := none
deriving DecidableEq, Repr

/-- The volumeInfo object of a Google Books item, restricted to the keys
the source reads. -/
structure GVolumeInfo where
  title : Option String := none
  authors : Option (List String) := none
  publisher : Option String := none
  publishedDate : Option String := none
  pageCount : Option Int := none
  edition : Option String := none
  infoLink : Option String := none
deriving DecidableEq, Repr

/-- One element of the list array of a WorldCat response. -/
structure WCBook where
  title : Option String := none
  author : Option String := none
  publisher : Option String := none
  year : Option String := none
deriving DecidableEq, Repr

/-- The book object of an ISBNdb response. -/
structure ISBNdbBook where
  title : Option String := none
  authors : Option (List String) := none
  publisher : Option String := none
  date_published : Option String := none
  pages : Option Int := none
deriving DecidableEq, Repr

/-- The raw-metadata bag built by fetch_doi_metadata, fetch_isbn_metadata
and the unknown-identifier branch of fetch_metadata: a Python dictionary
with the fixed keys below.  identifier, identifier_type and retrieved_at
are set by every constructor of a bag in the source, so they are plain
fields; sources is absent (modelled as the empty list) only in the
unknown-identifier bag.  type is named type_. -/
structure Metadata where
  identifier : String
  identifier_type : String
  sources : List String := []
  retrieved_at : String
  title : Option String := none
  authors : Option (List Author) := none
  published_date : Option DateVal := none
  publisher : Option String := none
  page_count : Option Int := none
  type_ : Option String := none
  open_access_url : Option (Option String) := none
  error : Option String := none
  crossref : Option CrossrefMsg := none
  datacite : Option DCAttrs := none
  unpaywall : Option Unpaywall := none
  openlibrary : Option OLBook := none
  google_books : Option GVolumeInfo := none
  worldcat : Option WCBook := none
  isbndb : Option ISBNdbBook := none
deriving DecidableEq, Repr

/-- The three provider responses consumed by fetch_doi_metadata.
none stands for a failed request, a non-JSON body, or a response lacking
the wrapper keys the source checks before use (message for Crossref, data
and attributes for DataCite, a truthy body for Unpaywall). -/
structure DoiResponses where
  crossref : Option CrossrefMsg := none
  datacite : Option DCAttrs := none
  unpaywall : Option Unpaywall := none
deriving DecidableEq, Repr

/-- The provider responses consumed by fetch_isbn_metadata, plus the
credential gate of the ISBNdb block (API_CONFIG Authorization header set
to a real key).  The Google Books and WorldCat payloads are the items and
list arrays; a present empty list is falsy and skipped by the source. -/
structure IsbnResponses where
  openlibrary : Option OLBook := none
  google_books : Option (List GVolumeInfo) := none
  worldcat : Option (List WCBook) := none
  isbndbConfigured : Bool := false
  isbndb : Option ISBNdbBook := none
deriving DecidableEq, Repr

/-! # fetch_doi_metadata (data_fetcher.py lines 200-268) -/

/-- The initial bag of fetch_doi_metadata (lines 210-215); now is the
value of datetime.now().isoformat(). -/
def initDoiBag (doi now : String) : Metadata :=
  { identifier := doi, identifier_type := "doi", sources := [], retrieved_at := now }

/-- The title assignment of the Crossref block (lines 224-225): the read
message title [0] raises IndexError on an empty title array; when the key
is absent the bag keeps its previous title. -/
def crossrefTitle (msg : CrossrefMsg) (m : Metadata) : Except String (Option String) :=
  match msg.title with
  | some ts => (pyIndex0 ts).map some
  | none => Except.ok m.title

/-- The published_date assignment of the Crossref block (lines 228-231):
published-print, else published-online, else keep. -/
def crossrefDate (msg : CrossrefMsg) (m : Metadata) : Option DateVal :=
  match msg.publishedPrint with
  | some d => some d
  | none =>
    match msg.publishedOnline with
    | some d => some d
    | none => m.published_date

/-- The Crossref block of fetch_doi_metadata (lines 217-235).  Each
assignment of the source updates a distinct bag key guarded only by keys
of the payload, so the block is rendered as one record update built from
per-field helpers; the only raising operation is the title read. -/
def crossrefStep (msg? : Option CrossrefMsg) (m : Metadata) : Except String Metadata :=
  match msg? with
  | none => Except.ok m
  | some msg =>
      (crossrefTitle msg m).map (fun t =>
        { m with crossref := some msg, sources := m.sources ++ ["crossref"],
                 title := t,
                 authors := (match msg.author with
                             | some as => some as
                             | none => m.authors),
                 published_date := crossrefDate msg m,
                 publisher := (match msg.publisher with
                               | some p => some p
                               | none => m.publisher),
                 type_ := (match msg.type_ with
                           | some t => some t
                           | none => m.type_) })

/-- The for-loop over the DataCite dates array (lines 251-255): the first
entry whose dateType is Issued contributes the first four characters of
its date as the year, then the loop breaks. -/
def dcFindIssued : List DCDate → Option String
  | [] => none
  | d :: rest =>
      if d.dateType = "Issued" then some (String.mk (d.date.toList.take 4))
      else dcFindIssued rest

/-- The guarded title assignment of the DataCite block (lines 244-245):
only filled when the bag has no title; the read attributes titles [0]
raises IndexError on an empty titles array. -/
def dataciteTitle (att : DCAttrs) (m : Metadata) : Except String (Option String) :=
  match m.title, att.titles with
  | none, some ts => (pyIndex0 ts).map (fun t0 => some t0.title)
  | mt, _ => Except.ok mt

/-- The guarded authors assignment of the DataCite block (lines
246-249). -/
def dataciteAuthors (att : DCAttrs) (m : Metadata) : Option (List Author) :=
  match m.authors, att.creators with
  | none, some cs =>
      some (cs.map (fun (c : DCCreator) =>
        { given := some (c.givenName.getD ""),
          family := some (c.familyName.getD "") }))
  | ma, _ => ma

/-- The guarded published_date assignment of the DataCite block (lines
250-255). -/
def dataciteDate (att : DCAttrs) (m : Metadata) : Option DateVal :=
  match m.published_date, att.dates with
  | none, some ds =>
      (match dcFindIssued ds with
       | some y => some ⟨[[DPart.str y]]⟩
       | none => none)
  | md, _ => md

/-- The DataCite block of fetch_doi_metadata (lines 237-255): every field
is only filled when not already present.  Each guard of the source reads
only the key it assigns, so the block is one record update built from the
per-field helpers above. -/
def dataciteStep (att? : Option DCAttrs) (m : Metadata) : Except String Metadata :=
  match att? with
  | none => Except.ok m
  | some att =>
      (dataciteTitle att m).map (fun t =>
        { m with datacite := some att, sources := m.sources ++ ["datacite"],
                 title := t,
                 authors := dataciteAuthors att m,
                 published_date := dataciteDate att m })

/-- The Unpaywall block of fetch_doi_metadata (lines 257-266): when the
response reports open access and carries a truthy best_oa_location, the
url of that location (possibly absent, hence an inner Option) is stored
as the open-access override. -/
def unpaywallStep (u? : Option Unpaywall) (m : Metadata) : Metadata :=
  match u? with
  | none => m
  | some u =>
      let m := { m with unpaywall := some u, sources := m.sources ++ ["unpaywall"] }
      if u.is_oa = some true then
        match u.best_oa_location with
        | some (some loc) => { m with open_access_url := some loc.url }
        | _ => m
      else m

/-- fetch_doi_metadata (data_fetcher.py lines 200-268), with the three
network responses passed explicitly. -/
def fetch_doi_metadata (doi now : String) (r : DoiResponses) : Except String Metadata := do
  let m := initDoiBag doi now
  let m ← crossrefStep r.crossref m
  let m ← dataciteStep r.datacite m
  Except.ok (unpaywallStep r.unpaywall m)

/-! # fetch_isbn_metadata (data_fetcher.py lines 270-382) -/

/-- The name-splitting heuristic shared by the Open Library, Google Books
and ISBNdb author comprehensions: when the name contains a space, the last
whitespace-delimited token is the family name (indexing [-1], which raises
IndexError when the name contains a space but splits to no tokens) and the
space-joined remainder is the given name; otherwise the whole name is the
family name and the given name is empty. -/
def splitNameAuthor (name : String) : Except String Author :=
  if pyContains name ' ' then do
    let fam ← pyLast (pySplitWs name)
    Except.ok { family := some fam,
                given := some (String.intercalate " " (pySplitWs name).dropLast) }
  else
    Except.ok { family := some name, given := some "" }

/-- One Open Library author entry: the name is read with .get and an
empty default, then split by the shared heuristic (lines 298-300). -/
def olAuthorEntry (a : OLAuthor) : Except String Author :=
  splitNameAuthor (a.name.getD "")

/-- One WorldCat author segment: the segment is stripped before the same
split heuristic is applied (lines 347-349). -/
def wcAuthorEntry (seg : String) : Except String Author :=
  let t := pyStrip seg
  if pyContains t ' ' then do
    let fam ← pyLast (pySplitWs t)
    Except.ok { family := some fam,
                given := some (String.intercalate " " (pySplitWs t).dropLast) }
  else
    Except.ok { family := some t, given := some "" }

/-- The initial bag of fetch_isbn_metadata (lines 280-285). -/
def initIsbnBag (isbn now : String) : Metadata :=
  { identifier := isbn, identifier_type := "isbn", sources := [], retrieved_at := now }

/-- The unconditional title assignment of the Open Library block (lines
295-296). -/
def olTitle (b : OLBook) (m : Metadata) : Option String :=
  match b.title with
  | some t => some t
  | none => m.title

/-- The unconditional authors assignment of the Open Library block
(lines 297-300). -/
def olAuthorsE (b : OLBook) (m : Metadata) : Except String (Option (List Author)) :=
  match b.authors with
  | some as => (mapExcept olAuthorEntry as).map some
  | none => Except.ok m.authors

/-- The publisher assignment of the Open Library block (lines 301-302),
guarded by a truthy publishers array. -/
def olPublisher (b : OLBook) (m : Metadata) : Option String :=
  match b.publishers with
  | some (p :: _) => some p.name
  | _ => m.publisher

/-- The published_date assignment of the Open Library block (lines
303-307): only set when a four-digit year is found. -/
def olDate (b : OLBook) (m : Metadata) : Option DateVal :=
  match b.publish_date with
  | some d =>
      (match findYear d with
       | some y => some ⟨[[DPart.str y]]⟩
       | none => m.published_date)
  | none => m.published_date

/-- The page_count assignment of the Open Library block (lines
308-309). -/
def olPages (b : OLBook) (m : Metadata) : Option Int :=
  match b.number_of_pages with
  | some n => some n
  | none => m.page_count

/-- The Open Library block of fetch_isbn_metadata (lines 287-309): the
first provider in the chain sets its fields unconditionally.  Each
assignment of the source updates a distinct bag key, so the block is one
record update built from the per-field helpers above. -/
def openlibraryStep (b? : Option OLBook) (m : Metadata) : Except String Metadata :=
  match b? with
  | none => Except.ok m
  | some b =>
      (olAuthorsE b m).map (fun as =>
        { m with openlibrary := some b, sources := m.sources ++ ["openlibrary"],
                 title := olTitle b m, authors := as,
                 publisher := olPublisher b m,
                 published_date := olDate b m, page_count := olPages b m })

/-- The guarded title assignment of the Google Books block (lines
319-320). -/
def gTitle (vi : GVolumeInfo) (m : Metadata) : Option String :=
  match m.title, vi.title with
  | none, some t => some t
  | mt, _ => mt

/-- The guarded authors assignment of the Google Books block (lines
321-324). -/
def gAuthorsE (vi : GVolumeInfo) (m : Metadata) : Except String (Option (List Author)) :=
  match m.authors, vi.authors with
  | none, some as => (mapExcept splitNameAuthor as).map some
  | ma, _ => Except.ok ma

/-- The guarded publisher assignment of the Google Books block (lines
325-326). -/
def gPublisher (vi : GVolumeInfo) (m : Metadata) : Option String :=
  match m.publisher, vi.publisher with
  | none, some p => some p
  | mp, _ => mp

/-- The guarded published_date assignment of the Google Books block
(lines 327-330). -/
def gDate (vi : GVolumeInfo) (m : Metadata) : Option DateVal :=
  match m.published_date, vi.publishedDate with
  | none, some d =>
      (match findYear d with
       | some y => some ⟨[[DPart.str y]]⟩
       | none => none)
  | md, _ => md

/-- The guarded page_count assignment of the Google Books block (lines
331-332). -/
def gPages (vi : GVolumeInfo) (m : Metadata) : Option Int :=
  match m.page_count, vi.pageCount with
  | none, some n => some n
  | mp, _ => mp

/-- The Google Books block of fetch_isbn_metadata (lines 311-332): it
reads items [0] volumeInfo and fills only fields not already present;
each guard of the source reads only the key it assigns. -/
def googleStep (items? : Option (List GVolumeInfo)) (m : Metadata) :
    Except String Metadata :=
  match items? with
  | some (vi :: _) =>
      (gAuthorsE vi m).map (fun as =>
        { m with google_books := some vi, sources := m.sources ++ ["google_books"],
                 title := gTitle vi m, authors := as,
                 publisher := gPublisher vi m,
                 published_date := gDate vi m, page_count := gPages vi m })
  | _ => Except.ok m

/-- The guarded title assignment of the WorldCat block (lines 342-343). -/
def wcTitle (b : WCBook) (m : Metadata) : Option String :=
  match m.title, b.title with
  | none, some t => some t
  | mt, _ => mt

/-- The guarded authors assignment of the WorldCat block (lines 344-349):
the author string is split on semicolons. -/
def wcAuthorsE (b : WCBook) (m : Metadata) : Except String (Option (List Author)) :=
  match m.authors, b.author with
  | none, some s => (mapExcept wcAuthorEntry (pySplitOn s ';')).map some
  | ma, _ => Except.ok ma

/-- The guarded publisher assignment of the WorldCat block (lines
350-351). -/
def wcPublisher (b : WCBook) (m : Metadata) : Option String :=
  match m.publisher, b.publisher with
  | none, some p => some p
  | mp, _ => mp

/-- The guarded published_date assignment of the WorldCat block (lines
352-353): the year value is stored directly. -/
def wcDate (b : WCBook) (m : Metadata) : Option DateVal :=
  match m.published_date, b.year with
  | none, some y => some ⟨[[DPart.str y]]⟩
  | md, _ => md

/-- The WorldCat block of fetch_isbn_metadata (lines 334-353): it reads
list [0] and fills only fields not already present; each guard of the
source reads only the key it assigns. -/
def worldcatStep (list? : Option (List WCBook)) (m : Metadata) :
    Except String Metadata :=
  match list? with
  | some (b :: _) =>
      (wcAuthorsE b m).map (fun as =>
        { m with worldcat := some b, sources := m.sources ++ ["worldcat"],
                 title := wcTitle b m, authors := as,
                 publisher := wcPublisher b m,
                 published_date := wcDate b m })
  | _ => Except.ok m

/-- The unconditional title assignment of the ISBNdb block (lines
364-365). -/
def idbTitle (b : ISBNdbBook) (m : Metadata) : Option String :=
  match b.title with
  | some t => some t
  | none => m.title

/-- The unconditional authors assignment of the ISBNdb block (lines
366-369). -/
def idbAuthorsE (b : ISBNdbBook) (m : Metadata) : Except String (Option (List Author)) :=
  match b.authors with
  | some as => (mapExcept splitNameAuthor as).map some
  | none => Except.ok m.authors

/-- The unconditional publisher assignment of the ISBNdb block (lines
370-371). -/
def idbPublisher (b : ISBNdbBook) (m : Metadata) : Option String :=
  match b.publisher with
  | some p => some p
  | none => m.publisher

/-- The published_date assignment of the ISBNdb block (lines 372-375):
overwrites whenever a four-digit year is found. -/
def idbDate (b : ISBNdbBook) (m : Metadata) : Option DateVal :=
  match b.date_published with
  | some d =>
      (match findYear d with
       | some y => some ⟨[[DPart.str y]]⟩
       | none => m.published_date)
  | none => m.published_date

/-- The page_count assignment of the ISBNdb block (lines 376-377). -/
def idbPages (b : ISBNdbBook) (m : Metadata) : Option Int :=
  match b.pages with
  | some n => some n
  | none => m.page_count

/-- The ISBNdb block of fetch_isbn_metadata (lines 355-377), reached only
when an API key is configured.  Unlike every other block in the chain, it
sets title, authors and publisher unconditionally (the source comments
that ISBNdb data might be preferred), and overwrites published_date and
page_count whenever it can parse them. -/
def isbndbStep (configured : Bool) (b? : Option ISBNdbBook) (m : Metadata) :
    Except String Metadata :=
  if configured then
    match b? with
    | none => Except.ok m
    | some b =>
        (idbAuthorsE b m).map (fun as =>
          { m with isbndb := some b, sources := m.sources ++ ["isbndb"],
                   title := idbTitle b m, authors := as,
                   publisher := idbPublisher b m,
                   published_date := idbDate b m, page_count := idbPages b m })
  else Except.ok m

/-- fetch_isbn_metadata (data_fetcher.py lines 270-382), with the network
responses passed explicitly; the bag type is set to book at the end. -/
def fetch_isbn_metadata (isbn now : String) (r : IsbnResponses) : Except String Metadata := do
  let m := initIsbnBag isbn now
  let m ← openlibraryStep r.openlibrary m
  let m ← googleStep r.google_books m
  let m ← worldcatStep r.worldcat m
  let m ← isbndbStep r.isbndbConfigured r.isbndb m
  Except.ok { m with type_ := some "book" }

/-- fetch_metadata (data_fetcher.py lines 384-410): clean the identifier,
classify it (the classifier cleans again, as in the source), and dispatch;
an unrecognized identifier yields a bag with an error field and no
sources. -/
def fetch_metadata (s now : String) (rd : DoiResponses) (ri : IsbnResponses) :
    Except String Metadata :=
  let identifier := clean_identifier s
  match identify_identifier_type identifier with
  | some "doi" => fetch_doi_metadata identifier now rd
  | some "isbn" => fetch_isbn_metadata identifier now ri
  | _ =>
      Except.ok { identifier := identifier, identifier_type := "unknown",
                  error := some "Unrecognized identifier format",
                  retrieved_at := now }

/-! # CSL converter (csl_converter.py) -/

/-- The canonical CSL-JSON record built by csl_converter.py: a dictionary
whose id and type keys are always written, every other key only under the
conditions of the source.  URL distinguishes key absent (outer none) from
a None value copied from an absent open-access url (inner none). -/
structure CSL where
  id : String
  type_ : String
  title : Option String := none
  author : Option (List Author) := none
  issued : Option DateVal := none
  publisher : Option String := none
  containerTitle : Option String := none
  volume : Option String := none
  issue : Option String := none
  page : Option String := none
  URL : Option (Option String) := none
  DOI : Option String := none
  ISBN : Option String := none
  ISSN : Option String := none
  abstract : Option String := none
  numberOfPages : Option Int := none
  edition : Option String := none
  publisherPlace : Option String := none
deriving DecidableEq, Repr

/-- The type_mapping dictionary of map_crossref_type_to_csl
(csl_converter.py lines 203-230). -/
def type_mapping : List (String × String) :=
  [("journal-article", "article-journal"),
   ("book-chapter", "chapter"),
   ("book", "book"),
   ("monograph", "book"),
   ("edited-book", "book"),
   ("reference-book", "book"),
   ("proceedings-article", "paper-conference"),
   ("proceedings", "paper-conference"),
   ("conference-paper", "paper-conference"),
   ("report", "report"),
   ("report-series", "report"),
   ("standard", "report"),
   ("dissertation", "thesis"),
   ("dataset", "dataset"),
   ("posted-content", "post"),
   ("journal-issue", "article-journal"),
   ("journal-volume", "article-journal"),
   ("journal", "article-journal"),
   ("book-series", "book"),
   ("book-set", "book"),
   ("book-track", "chapter"),
   ("book-part", "chapter"),
   ("book-section", "chapter"),
   ("proceedings-series", "paper-conference"),
   ("report-component", "report"),
   ("standard-series", "report")]

/-- map_crossref_type_to_csl (csl_converter.py lines 193-232): dict.get
with default article-journal. -/
def map_crossref_type_to_csl (t : String) : String :=
  (lookupStr type_mapping t).getD "article-journal"

/-- The closed type vocabulary named by section 3 of the specification. -/
def cslTypeVocabulary : List String :=
  ["article-journal", "book", "chapter", "paper-conference", "report",
   "thesis", "dataset", "post"]

/-- The title of the canonical DOI record (csl_converter.py lines
59-63): the bag title, else the Crossref title array indexed at 0
(which raises IndexError on an empty array), else absent. -/
def convertDoiTitle (m : Metadata) : Except String (Option String) :=
  match m.title with
  | some t => Except.ok (some t)
  | none =>
    match m.crossref with
    | some msg =>
        match msg.title with
        | some ts => (pyIndex0 ts).map some
        | none => Except.ok none
    | none => Except.ok none

/-- convert_doi_metadata_to_csl (csl_converter.py lines 38-126).  The
only operation that can raise is the fallback title read modelled by
convertDoiTitle; every other key is a pure function of the bag. -/
def convert_doi_metadata_to_csl (m : Metadata) : Except String CSL :=
  (convertDoiTitle m).map (fun title? =>
  let ty := match m.crossref with
            | some msg =>
                match msg.type_ with
                | some t => map_crossref_type_to_csl t
                | none => "article-journal"
            | none => "article-journal"
  let author? := match m.authors with
                 | some as => some as
                 | none =>
                   match m.crossref with
                   | some msg =>
                       match msg.author with
                       | some as =>
                           some (as.map (fun (a : Author) =>
                             { family := a.family, given := a.given }))
                       | none => none
                   | none => none
  let issued? := match m.published_date with
                 | some d => some d
                 | none =>
                   match m.crossref with
                   | some msg =>
                       match msg.publishedPrint with
                       | some d => some d
                       | none =>
                         match msg.publishedOnline with
                         | some d => some d
                         | none => msg.created
                   | none => none
  let publisher? := match m.publisher with
                    | some p => some p
                    | none =>
                      match m.crossref with
                      | some msg => msg.publisher
                      | none => none
  let container? := match m.crossref with
                    | some msg =>
                        match msg.containerTitle with
                        | some ts => some (ts.headD "")
                        | none => none
                    | none => none
  let volume? := match m.crossref with
                 | some msg => msg.volume
                 | none => none
  let issue? := match m.crossref with
                | some msg => msg.issue
                | none => none
  let page? := match m.crossref with
               | some msg => msg.page
               | none => none
  let url : Option String := match m.open_access_url with
                             | some v => v
                             | none => some ("https://doi.org/" ++ m.identifier)
  let issn? := match m.crossref with
               | some msg =>
                   match msg.ISSN with
                   | some ts => some (ts.headD "")
                   | none => none
               | none => none
  let abstract? := match m.crossref with
                   | some msg => msg.abstract
                   | none => none
  { id := m.identifier, type_ := ty, title := title?, author := author?,
    issued := issued?, publisher := publisher?, containerTitle := container?,
    volume := volume?, issue := issue?, page := page?, URL := some url,
    DOI := some m.identifier, ISSN := issn?, abstract := abstract? })

/-- Word characters of the regular expression class \w (ASCII part). -/
def wordChar (c : Char) : Bool := c.isAlphanum || c = '_'

/-- Case-insensitive match of the literal edition at the head of a
character list. -/
def editionLitAt (l : List Char) : Bool :=
  (l.take 7).map Char.toLower = "edition".toList

/-- Attempt of the Open Library edition pattern at one position: one or
more digits (group 1), then word characters, then at least one whitespace
character, then the literal edition, case-insensitively.  Greedy matching
needs no backtracking because the digit, word and whitespace classes make
the stop positions unique. -/
def olEditionAt (l : List Char) : Option String :=
  let ds := l.takeWhile Char.isDigit
  if ds.isEmpty then none
  else
    let r1 := (l.dropWhile Char.isDigit).dropWhile wordChar
    let ws := r1.takeWhile Char.isWhitespace
    if ws.isEmpty then none
    else if editionLitAt (r1.dropWhile Char.isWhitespace) then some (String.mk ds)
    else none

/-- re.search of the Open Library edition pattern (csl_converter.py line
169): leftmost position wins. -/
def olEditionScan : List Char → Option String
  | [] => none
  | c :: rest =>
      match olEditionAt (c :: rest) with
      | some ds => some ds
      | none => olEditionScan rest

/-- re.search of one or more digits (csl_converter.py line 174): the
maximal digit run at the first digit position. -/
def firstDigitRun : List Char → Option String
  | [] => none
  | c :: rest =>
      if c.isDigit then some (String.mk ((c :: rest).takeWhile Char.isDigit))
      else firstDigitRun rest

/-- convert_isbn_metadata_to_csl (csl_converter.py lines 128-191); no
operation in this branch can raise on the modelled shapes. -/
def convert_isbn_metadata_to_csl (m : Metadata) : CSL :=
  let edition? := match m.openlibrary with
                  | some ob =>
                      match ob.edition_name with
                      | some e => olEditionScan e.toList
                      | none =>
                        match m.google_books with
                        | some gb =>
                            match gb.edition with
                            | some e => firstDigitRun e.toList
                            | none => none
                        | none => none
                  | none =>
                    match m.google_books with
                    | some gb =>
                        match gb.edition with
                        | some e => firstDigitRun e.toList
                        | none => none
                    | none => none
  let url? := match m.openlibrary with
              | some ob =>
                  match ob.url with
                  | some u => some u
                  | none =>
                    match m.google_books with
                    | some gb => gb.infoLink
                    | none => none
              | none =>
                match m.google_books with
                | some gb => gb.infoLink
                | none => none
  let place? := match m.openlibrary with
                | some ob =>
                    match ob.publish_places with
                    | some (p :: _) => some p.name
                    | _ => none
                | none => none
  { id := m.identifier, type_ := "book", title := m.title, author := m.authors,
    issued := m.published_date, publisher := m.publisher,
    numberOfPages := m.page_count, edition := edition?,
    ISBN := some m.identifier,
    URL := match url? with
           | some u => some (some u)
           | none => none,
    publisherPlace := place? }

/-- convert_to_csl_json (csl_converter.py lines 14-36): dispatch on the
identifier_type key; any other value yields the minimal record with type
article and a default title. -/
def convert_to_csl_json (m : Metadata) : Except String CSL :=
  if m.identifier_type = "doi" then convert_doi_metadata_to_csl m
  else if m.identifier_type = "isbn" then Except.ok (convert_isbn_metadata_to_csl m)
  else Except.ok { id := m.identifier, type_ := "article",
                   title := some (m.title.getD "Unknown Title") }

/-- Ambient process state visible to csl_converter.py when the builder
runs: the wall clock (datetime is imported by the module) and the
service-level citation cache.  The builder functions read none of it. -/
structure Env where
  now : String
  citation_cache : List (String × String)

/-- The Canonical Record Builder as executed inside a process with
ambient state e: the source of convert_to_csl_json reads only its
argument, so the embedding ignores e. -/
def convert_to_csl_json_in_env (_ : Env) (m : Metadata) : Except String CSL :=
  convert_to_csl_json m

/-! # Citation styles (citation_styles.py lines 56-193) -/

/-- STYLE_MAPPING (citation_styles.py lines 56-72). -/
def STYLE_MAPPING : List (String × String) :=
  [("apa", "apa"),
   ("apa-7th", "apa-6th-edition"),
   ("mla", "modern-language-association"),
   ("mla-9", "modern-language-association-8th-edition"),
   ("chicago", "chicago-author-date"),
   ("chicago-notes", "chicago-note-bibliography"),
   ("harvard", "harvard-cite-them-right"),
   ("ieee", "ieee"),
   ("vancouver", "vancouver"),
   ("ama", "american-medical-association"),
   ("acs", "american-chemical-society"),
   ("nature", "nature"),
   ("science", "science"),
   ("bibtex", "bibtex"),
   ("acm", "acm-sig-proceedings")]

/-- Python str.lower() (ASCII part, per the style names in use). -/
def pyLower (s : String) : String :=
  String.mk (s.toList.map Char.toLower)

/-- The style-sheet resolution of format_citation (citation_styles.py
line 144): STYLE_MAPPING.get(style_name.lower(), the apa default). -/
def resolveStyleId (styleName : String) : String :=
  (lookupStr STYLE_MAPPING (pyLower styleName)).getD "apa"

/-- The observable outcome of format_citation.  The source returns plain
strings in every case; the constructors separate the error string about a
missing style file, the error string from the except branch, and a
successfully rendered bibliography. -/
inductive FormatResult where
  | styleNotFound (styleName : String)
  | renderError (msg : String)
  | rendered (text : String)
deriving DecidableEq, Repr

/-- format_citation (citation_styles.py lines 131-193), with the style
file cache or download modelled by downloadStyle (none = download_csl_style
returned None) and the external citeproc engine modelled by engine, which
receives the style file content, the output format and the record. -/
def format_citation (downloadStyle : String → Option String)
    (engine : String → String → CSL → Except String String)
    (csl : CSL) (styleName : String) (outputFormat : String) : FormatResult :=
  let style_id := resolveStyleId styleName
  match downloadStyle style_id with
  | none => FormatResult.styleNotFound styleName
  | some styleContent =>
      match engine styleContent outputFormat csl with
      | Except.ok text => FormatResult.rendered text
      | Except.error e => FormatResult.renderError e

/-! # Schema-conformance predicates for the aggregation (claim C2) -/

/-- A name is safe for the split heuristic: either it has no space, or
str.split() of it yields at least one token.  Only names made of
whitespace with at least one space violate this. -/
def nameOk (s : String) : Bool := !(pyContains s ' ') || !(pySplitWs s).isEmpty

/-- A WorldCat author string is safe when every semicolon segment is safe
after stripping. -/
def wcAuthorOk (s : String) : Bool :=
  (pySplitOn s ';').all (fun seg => nameOk (pyStrip seg))

/-- Schema conformance of the DOI provider responses: title arrays, when
present, are non-empty.  These are the exact conditions under which
fetch_doi_metadata performs no raising operation. -/
def doiSchemaOk (r : DoiResponses) : Bool :=
  (match r.crossref with
   | some msg => match msg.title with
                 | some ts => !ts.isEmpty
                 | none => true
   | none => true) &&
  (match r.datacite with
   | some att => match att.titles with
                 | some ts => !ts.isEmpty
                 | none => true
   | none => true)

/-- Schema conformance of the ISBN provider responses: every author name
reaching the split heuristic yields at least one token. -/
def isbnSchemaOk (r : IsbnResponses) : Bool :=
  (match r.openlibrary with
   | some b => match b.authors with
               | some as => as.all (fun a => nameOk (a.name.getD ""))
               | none => true
   | none => true) &&
  (match r.google_books with
   | some (vi :: _) => match vi.authors with
                       | some as => as.all nameOk
                       | none => true
   | _ => true) &&
  (match r.worldcat with
   | some (b :: _) => match b.author with
                      | some s => wcAuthorOk s
                      | none => true
   | _ => true) &&
  (match r.isbndbConfigured, r.isbndb with
   | true, some b => match b.authors with
                     | some as => as.all nameOk
                     | none => true
   | _, _ => true)

/-! # Lemmas about the aggregation steps -/

theorem crossrefStep_pres_oau {msg? : Option CrossrefMsg} {m m' : Metadata}
    (h : crossrefStep msg? m = Except.ok m') :
    m'.open_access_url = m.open_access_url := by
  rcases msg? with _ | msg
  · simp [crossrefStep] at h
    rw [← h]
  · simp only [crossrefStep] at h
    rcases ht : crossrefTitle msg m with e | t <;> rw [ht] at h <;>
      simp [Except.map] at h
    rw [← h]

theorem dataciteStep_pres_oau {att? : Option DCAttrs} {m m' : Metadata}
    (h : dataciteStep att? m = Except.ok m') :
    m'.open_access_url = m.open_access_url := by
  rcases att? with _ | att
  · simp [dataciteStep] at h
    rw [← h]
  · simp only [dataciteStep] at h
    rcases ht : dataciteTitle att m with e | t <;> rw [ht] at h <;>
      simp [Except.map] at h
    rw [← h]

theorem crossrefStep_none (m : Metadata) : crossrefStep none m = Except.ok m := rfl

theorem crossrefStep_ok_shape {msg : CrossrefMsg} {m m' : Metadata}
    (h : crossrefStep (some msg) m = Except.ok m') :
    ∃ t, crossrefTitle msg m = Except.ok t ∧
      m' = { m with crossref := some msg, sources := m.sources ++ ["crossref"],
                    title := t,
                    authors := (match msg.author with
                                | some as => some as
                                | none => m.authors),
                    published_date := crossrefDate msg m,
                    publisher := (match msg.publisher with
                                  | some p => some p
                                  | none => m.publisher),
                    type_ := (match msg.type_ with
                              | some t => some t
                              | none => m.type_) } := by
  simp only [crossrefStep] at h
  rcases ht : crossrefTitle msg m with e | t <;> rw [ht] at h <;>
    simp [Except.map] at h
  exact ⟨t, rfl, h.symm⟩

theorem dataciteStep_none (m : Metadata) : dataciteStep none m = Except.ok m := rfl

theorem dataciteStep_ok_shape {att : DCAttrs} {m m' : Metadata}
    (h : dataciteStep (some att) m = Except.ok m') :
    ∃ t, dataciteTitle att m = Except.ok t ∧
      m' = { m with datacite := some att, sources := m.sources ++ ["datacite"],
                    title := t,
                    authors := dataciteAuthors att m,
                    published_date := dataciteDate att m } := by
  simp only [dataciteStep] at h
  rcases ht : dataciteTitle att m with e | t <;> rw [ht] at h <;>
    simp [Except.map] at h
  exact ⟨t, rfl, h.symm⟩

theorem openlibraryStep_none (m : Metadata) : openlibraryStep none m = Except.ok m := rfl

theorem openlibraryStep_ok_shape {b : OLBook} {m m' : Metadata}
    (h : openlibraryStep (some b) m = Except.ok m') :
    ∃ as, olAuthorsE b m = Except.ok as ∧
      m' = { m with openlibrary := some b, sources := m.sources ++ ["openlibrary"],
                    title := olTitle b m, authors := as,
                    publisher := olPublisher b m,
                    published_date := olDate b m, page_count := olPages b m } := by
  simp only [openlibraryStep] at h
  rcases ha : olAuthorsE b m with e | as <;> rw [ha] at h <;>
    simp [Except.map] at h
  exact ⟨as, rfl, h.symm⟩

theorem googleStep_none (m : Metadata) : googleStep none m = Except.ok m := rfl

theorem googleStep_nil (m : Metadata) : googleStep (some []) m = Except.ok m := rfl

theorem googleStep_ok_shape {vi : GVolumeInfo} {rest : List GVolumeInfo} {m m' : Metadata}
    (h : googleStep (some (vi :: rest)) m = Except.ok m') :
    ∃ as, gAuthorsE vi m = Except.ok as ∧
      m' = { m with google_books := some vi, sources := m.sources ++ ["google_books"],
                    title := gTitle vi m, authors := as,
                    publisher := gPublisher vi m,
                    published_date := gDate vi m, page_count := gPages vi m } := by
  simp only [googleStep] at h
  rcases ha : gAuthorsE vi m with e | as <;> rw [ha] at h <;>
    simp [Except.map] at h
  exact ⟨as, rfl, h.symm⟩

theorem worldcatStep_none (m : Metadata) : worldcatStep none m = Except.ok m := rfl

theorem worldcatStep_nil (m : Metadata) : worldcatStep (some []) m = Except.ok m := rfl

theorem worldcatStep_ok_shape {b : WCBook} {rest : List WCBook} {m m' : Metadata}
    (h : worldcatStep (some (b :: rest)) m = Except.ok m') :
    ∃ as, wcAuthorsE b m = Except.ok as ∧
      m' = { m with worldcat := some b, sources := m.sources ++ ["worldcat"],
                    title := wcTitle b m, authors := as,
                    publisher := wcPublisher b m,
                    published_date := wcDate b m } := by
  simp only [worldcatStep] at h
  rcases ha : wcAuthorsE b m with e | as <;> rw [ha] at h <;>
    simp [Except.map] at h
  exact ⟨as, rfl, h.symm⟩

theorem isbndbStep_off (b? : Option ISBNdbBook) (m : Metadata) :
    isbndbStep false b? m = Except.ok m := rfl

theorem isbndbStep_on_none (m : Metadata) :
    isbndbStep true none m = Except.ok m := rfl

theorem isbndbStep_ok_shape {b : ISBNdbBook} {m m' : Metadata}
    (h : isbndbStep true (some b) m = Except.ok m') :
    ∃ as, idbAuthorsE b m = Except.ok as ∧
      m' = { m with isbndb := some b, sources := m.sources ++ ["isbndb"],
                    title := idbTitle b m, authors := as,
                    publisher := idbPublisher b m,
                    published_date := idbDate b m, page_count := idbPages b m } := by
  simp only [isbndbStep] at h
  rcases ha : idbAuthorsE b m with e | as <;> rw [ha] at h <;>
    simp [Except.map] at h
  exact ⟨as, rfl, h.symm⟩

theorem unpaywallStep_none (m : Metadata) : unpaywallStep none m = m := rfl

theorem unpaywallStep_core_fields (u? : Option Unpaywall) (m : Metadata) :
    (unpaywallStep u? m).title = m.title ∧
    (unpaywallStep u? m).authors = m.authors ∧
    (unpaywallStep u? m).publisher = m.publisher ∧
    (unpaywallStep u? m).published_date = m.published_date ∧
    (unpaywallStep u? m).page_count = m.page_count := by
  rcases u? with _ | u
  · simp [unpaywallStep]
  · by_cases hoa : u.is_oa = some true
    · rcases hb : u.best_oa_location with _ | (_ | loc) <;>
        simp [unpaywallStep, hoa, hb]
    · simp [unpaywallStep, hoa]

theorem unpaywallStep_sets_oau {u : Unpaywall} {loc : OALoc} (m : Metadata)
    (hoa : u.is_oa = some true) (hb : u.best_oa_location = some (some loc)) :
    (unpaywallStep (some u) m).open_access_url = some loc.url := by
  simp [unpaywallStep, hoa, hb]

theorem dataciteTitle_of_some {att : DCAttrs} {m : Metadata} {t : String}
    (hm : m.title = some t) : dataciteTitle att m = Except.ok (some t) := by
  simp [dataciteTitle, hm]

theorem dataciteAuthors_of_some {att : DCAttrs} {m : Metadata} {a : List Author}
    (hm : m.authors = some a) : dataciteAuthors att m = some a := by
  simp [dataciteAuthors, hm]

theorem dataciteDate_of_some {att : DCAttrs} {m : Metadata} {d : DateVal}
    (hm : m.published_date = some d) : dataciteDate att m = some d := by
  simp [dataciteDate, hm]

theorem gTitle_of_some {vi : GVolumeInfo} {m : Metadata} {t : String}
    (hm : m.title = some t) : gTitle vi m = some t := by
  simp [gTitle, hm]

theorem gAuthorsE_of_some {vi : GVolumeInfo} {m : Metadata} {a : List Author}
    (hm : m.authors = some a) : gAuthorsE vi m = Except.ok (some a) := by
  simp [gAuthorsE, hm]

theorem gPublisher_of_some {vi : GVolumeInfo} {m : Metadata} {p : String}
    (hm : m.publisher = some p) : gPublisher vi m = some p := by
  simp [gPublisher, hm]

theorem gDate_of_some {vi : GVolumeInfo} {m : Metadata} {d : DateVal}
    (hm : m.published_date = some d) : gDate vi m = some d := by
  simp [gDate, hm]

theorem gPages_of_some {vi : GVolumeInfo} {m : Metadata} {n : Int}
    (hm : m.page_count = some n) : gPages vi m = some n := by
  simp [gPages, hm]

theorem wcTitle_of_some {b : WCBook} {m : Metadata} {t : String}
    (hm : m.title = some t) : wcTitle b m = some t := by
  simp [wcTitle, hm]

theorem wcAuthorsE_of_some {b : WCBook} {m : Metadata} {a : List Author}
    (hm : m.authors = some a) : wcAuthorsE b m = Except.ok (some a) := by
  simp [wcAuthorsE, hm]

theorem wcPublisher_of_some {b : WCBook} {m : Metadata} {p : String}
    (hm : m.publisher = some p) : wcPublisher b m = some p := by
  simp [wcPublisher, hm]

theorem wcDate_of_some {b : WCBook} {m : Metadata} {d : DateVal}
    (hm : m.published_date = some d) : wcDate b m = some d := by
  simp [wcDate, hm]

/-- Preservation through the Google Books step: every one of the five
merge fields, once set, is kept (the step only fills absent fields). -/
theorem googleStep_preserves {items? : Option (List GVolumeInfo)} {m m' : Metadata}
    (h : googleStep items? m = Except.ok m') :
    (∀ t, m.title = some t → m'.title = some t) ∧
    (∀ a, m.authors = some a → m'.authors = some a) ∧
    (∀ p, m.publisher = some p → m'.publisher = some p) ∧
    (∀ d, m.published_date = some d → m'.published_date = some d) ∧
    (∀ n, m.page_count = some n → m'.page_count = some n) := by
  rcases items? with _ | (_ | ⟨vi, rest⟩)
  · rw [googleStep_none] at h
    cases h
    exact ⟨fun _ ht => ht, fun _ ht => ht, fun _ ht => ht, fun _ ht => ht, fun _ ht => ht⟩
  · rw [googleStep_nil] at h
    cases h
    exact ⟨fun _ ht => ht, fun _ ht => ht, fun _ ht => ht, fun _ ht => ht, fun _ ht => ht⟩
  · obtain ⟨as, ha, hm'⟩ := googleStep_ok_shape h
    subst hm'
    refine ⟨fun t ht => ?_, fun a hA => ?_, fun p hp => ?_, fun d hd => ?_, fun n hn => ?_⟩
    · simpa using gTitle_of_some ht
    · have := @gAuthorsE_of_some vi _ _ hA
      rw [this] at ha
      cases ha
      rfl
    · simpa using gPublisher_of_some hp
    · simpa using gDate_of_some hd
    · simpa using gPages_of_some hn

/-- Preservation through the WorldCat step: every merge field it can
write, once set, is kept; page_count is never written by this step. -/
theorem worldcatStep_preserves {list? : Option (List WCBook)} {m m' : Metadata}
    (h : worldcatStep list? m = Except.ok m') :
    (∀ t, m.title = some t → m'.title = some t) ∧
    (∀ a, m.authors = some a → m'.authors = some a) ∧
    (∀ p, m.publisher = some p → m'.publisher = some p) ∧
    (∀ d, m.published_date = some d → m'.published_date = some d) ∧
    (m'.page_count = m.page_count) := by
  rcases list? with _ | (_ | ⟨b, rest⟩)
  · rw [worldcatStep_none] at h
    cases h
    exact ⟨fun _ ht => ht, fun _ ht => ht, fun _ ht => ht, fun _ ht => ht, rfl⟩
  · rw [worldcatStep_nil] at h
    cases h
    exact ⟨fun _ ht => ht, fun _ ht => ht, fun _ ht => ht, fun _ ht => ht, rfl⟩
  · obtain ⟨as, ha, hm'⟩ := worldcatStep_ok_shape h
    subst hm'
    refine ⟨fun t ht => ?_, fun a hA => ?_, fun p hp => ?_, fun d hd => ?_, rfl⟩
    · simpa using wcTitle_of_some ht
    · have := @wcAuthorsE_of_some b _ _ hA
      rw [this] at ha
      cases ha
      rfl
    · simpa using wcPublisher_of_some hp
    · simpa using wcDate_of_some hd

/-- Preservation through the DataCite step: the three merge fields it can
write, once set, are kept; publisher and page_count are never written. -/
theorem dataciteStep_preserves {att? : Option DCAttrs} {m m' : Metadata}
    (h : dataciteStep att? m = Except.ok m') :
    (∀ t, m.title = some t → m'.title = some t) ∧
    (∀ a, m.authors = some a → m'.authors = some a) ∧
    (∀ d, m.published_date = some d → m'.published_date = some d) ∧
    (m'.publisher = m.publisher) ∧ (m'.page_count = m.page_count) := by
  rcases att? with _ | att
  · rw [dataciteStep_none] at h
    cases h
    exact ⟨fun _ ht => ht, fun _ ht => ht, fun _ ht => ht, rfl, rfl⟩
  · obtain ⟨t0, ht0, hm'⟩ := dataciteStep_ok_shape h
    subst hm'
    refine ⟨fun t ht => ?_, fun a hA => ?_, fun d hd => ?_, rfl, rfl⟩
    · have := @dataciteTitle_of_some att _ _ ht
      rw [this] at ht0
      cases ht0
      rfl
    · simpa using dataciteAuthors_of_some hA
    · simpa using dataciteDate_of_some hd

theorem fetch_doi_decomp {doi now : String} {r : DoiResponses} {m : Metadata}
    (h : fetch_doi_metadata doi now r = Except.ok m) :
    ∃ m1 m2, crossrefStep r.crossref (initDoiBag doi now) = Except.ok m1 ∧
      dataciteStep r.datacite m1 = Except.ok m2 ∧
      m = unpaywallStep r.unpaywall m2 := by
  simp only [fetch_doi_metadata, bind, Except.bind] at h
  rcases h1 : crossrefStep r.crossref (initDoiBag doi now) with e | m1 <;> rw [h1] at h <;>
    dsimp only at h
  · cases h
  rcases h2 : dataciteStep r.datacite m1 with e | m2 <;> rw [h2] at h <;>
    dsimp only at h
  · cases h
  cases h
  exact ⟨m1, m2, rfl, h2, rfl⟩

theorem fetch_isbn_decomp {isbn now : String} {r : IsbnResponses} {m : Metadata}
    (h : fetch_isbn_metadata isbn now r = Except.ok m) :
    ∃ m1 m2 m3 m4, openlibraryStep r.openlibrary (initIsbnBag isbn now) = Except.ok m1 ∧
      googleStep r.google_books m1 = Except.ok m2 ∧
      worldcatStep r.worldcat m2 = Except.ok m3 ∧
      isbndbStep r.isbndbConfigured r.isbndb m3 = Except.ok m4 ∧
      m = { m4 with type_ := some "book" } := by
  simp only [fetch_isbn_metadata, bind, Except.bind] at h
  rcases h1 : openlibraryStep r.openlibrary (initIsbnBag isbn now) with e | m1 <;> rw [h1] at h <;>
    dsimp only at h
  · cases h
  rcases h2 : googleStep r.google_books m1 with e | m2 <;> rw [h2] at h <;>
    dsimp only at h
  · cases h
  rcases h3 : worldcatStep r.worldcat m2 with e | m3 <;> rw [h3] at h <;>
    dsimp only at h
  · cases h
  rcases h4 : isbndbStep r.isbndbConfigured r.isbndb m3 with e | m4 <;> rw [h4] at h <;>
    dsimp only at h
  · cases h
  cases h
  exact ⟨m1, m2, m3, m4, rfl, h2, h3, h4, rfl⟩

/-- The concrete run refuting claim C1 as stated: Open Library (higher
precedence) supplies title A, the credential-gated ISBNdb provider (lower
precedence, at the end of the chain) supplies title B. -/
def c1CexResponses : IsbnResponses :=
  { openlibrary := some { title := some "A" },
    isbndbConfigured := true,
    isbndb := some { title := some "B" } }

/-- Counterexample to claim C1: in the run of c1CexResponses the merged
title is ISBNdb's value B, not the higher-precedence Open Library value
A — the ISBNdb block overwrites fields that are already set. -/
theorem isbndb_overwrites_higher_precedence_title :
    (fetch_isbn_metadata "9780306406157" "T" c1CexResponses).map Metadata.title
      = Except.ok (some "B") ∧
    (some "B" : Option String) ≠ some "A" := by
  exact ⟨rfl, by decide⟩

/-- Open Library did not supply a title in this run (no response, or a
book record without a title key). -/
def OLNoTitle (r : IsbnResponses) : Prop :=
  r.openlibrary = none ∨ ∃ b, r.openlibrary = some b ∧ b.title = none

/-- Open Library did not supply authors in this run. -/
def OLNoAuthors (r : IsbnResponses) : Prop :=
  r.openlibrary = none ∨ ∃ b, r.openlibrary = some b ∧ b.authors = none

/-- Open Library did not supply a publisher in this run (key absent, or
an empty and hence falsy publishers array). -/
def OLNoPublisher (r : IsbnResponses) : Prop :=
  r.openlibrary = none ∨ ∃ b, r.openlibrary = some b ∧
    (b.publishers = none ∨ b.publishers = some [])

/-- Open Library did not supply a publish date in this run (key absent,
or no four-digit year found in its value). -/
def OLNoDate (r : IsbnResponses) : Prop :=
  r.openlibrary = none ∨ ∃ b, r.openlibrary = some b ∧
    (b.publish_date = none ∨ ∃ d, b.publish_date = some d ∧ findYear d = none)

/-- Open Library did not supply a page count in this run. -/
def OLNoPages (r : IsbnResponses) : Prop :=
  r.openlibrary = none ∨ ∃ b, r.openlibrary = some b ∧ b.number_of_pages = none

theorem olStep_absent_fields {isbn now : String} {r : IsbnResponses} {m1 : Metadata}
    (h1 : openlibraryStep r.openlibrary (initIsbnBag isbn now) = Except.ok m1) :
    (OLNoTitle r → m1.title = none) ∧
    (OLNoAuthors r → m1.authors = none) ∧
    (OLNoPublisher r → m1.publisher = none) ∧
    (OLNoDate r → m1.published_date = none) ∧
    (OLNoPages r → m1.page_count = none) := by
  rcases hol : r.openlibrary with _ | b
  · rw [hol, openlibraryStep_none] at h1
    cases h1
    exact ⟨fun _ => rfl, fun _ => rfl, fun _ => rfl, fun _ => rfl, fun _ => rfl⟩
  · rw [hol] at h1
    obtain ⟨as0, ha0, hm1⟩ := openlibraryStep_ok_shape h1
    refine ⟨fun hT => ?_, fun hA => ?_, fun hP => ?_, fun hD => ?_, fun hN => ?_⟩
    · rcases hT with he | ⟨b2, hb2, hc⟩
      · rw [hol] at he
        cases he
      · rw [hol] at hb2
        injection hb2 with hb2
        subst hb2
        rw [hm1]
        simp [olTitle, hc, initIsbnBag]
    · rcases hA with he | ⟨b2, hb2, hc⟩
      · rw [hol] at he
        cases he
      · rw [hol] at hb2
        injection hb2 with hb2
        subst hb2
        have hnone : olAuthorsE b (initIsbnBag isbn now) = Except.ok none := by
          simp [olAuthorsE, hc, initIsbnBag]
        rw [hnone] at ha0
        cases ha0
        rw [hm1]
    · rcases hP with he | ⟨b2, hb2, hc⟩
      · rw [hol] at he
        cases he
      · rw [hol] at hb2
        injection hb2 with hb2
        subst hb2
        rcases hc with hc1 | hc1 <;> (rw [hm1]; simp [olPublisher, hc1, initIsbnBag])
    · rcases hD with he | ⟨b2, hb2, hc⟩
      · rw [hol] at he
        cases he
      · rw [hol] at hb2
        injection hb2 with hb2
        subst hb2
        rcases hc with hc1 | ⟨d, hd, hy⟩
        · rw [hm1]
          simp [olDate, hc1, initIsbnBag]
        · rw [hm1]
          simp [olDate, hd, hy, initIsbnBag]
    · rcases hN with he | ⟨b2, hb2, hc⟩
      · rw [hol] at he
        cases he
      · rw [hol] at hb2
        injection hb2 with hb2
        subst hb2
        rw [hm1]
        simp [olPages, hc, initIsbnBag]

/-- Claim C1 (amended): first-writer-wins holds for every logical field
across both chains, for every combination of provider responses in the
fixed precedence order.  DOI chain: every field Crossref supplies
(title, authors, publisher, published-print or published-online date)
survives DataCite and Unpaywall, and every field DataCite supplies when
Crossref returned nothing survives Unpaywall.  ISBN chain without the
credential-gated provider: every field Open Library supplies (title,
authors, publisher, published date, page count) survives Google Books
and WorldCat, and every field Google Books supplies that Open Library
did not survives WorldCat.  The exception the counterexample forces:
the ISBNdb provider, when configured, overwrites every one of these
fields with its own value whenever its payload carries it. -/
theorem merge_first_writer_wins_amended :
    (∀ (doi now : String) (r : DoiResponses) (msg : CrossrefMsg) (m : Metadata),
       r.crossref = some msg →
       fetch_doi_metadata doi now r = Except.ok m →
       (∀ t ts, msg.title = some (t :: ts) → m.title = some t) ∧
       (∀ as, msg.author = some as → m.authors = some as) ∧
       (∀ p, msg.publisher = some p → m.publisher = some p) ∧
       (∀ d, msg.publishedPrint = some d → m.published_date = some d) ∧
       (∀ d, msg.publishedPrint = none → msg.publishedOnline = some d →
          m.published_date = some d)) ∧
    (∀ (doi now : String) (r : DoiResponses) (att : DCAttrs) (m : Metadata),
       r.crossref = none →
       r.datacite = some att →
       fetch_doi_metadata doi now r = Except.ok m →
       (∀ t0 ts, att.titles = some (t0 :: ts) → m.title = some t0.title) ∧
       (∀ cs, att.creators = some cs →
          m.authors = some (cs.map (fun (c : DCCreator) =>
            { given := some (c.givenName.getD ""),
              family := some (c.familyName.getD "") }))) ∧
       (∀ ds y, att.dates = some ds → dcFindIssued ds = some y →
          m.published_date = some ⟨[[DPart.str y]]⟩)) ∧
    (∀ (isbn now : String) (r : IsbnResponses) (b : OLBook) (m : Metadata),
       r.isbndbConfigured = false →
       r.openlibrary = some b →
       fetch_isbn_metadata isbn now r = Except.ok m →
       (∀ t, b.title = some t → m.title = some t) ∧
       (∀ as l, b.authors = some as → mapExcept olAuthorEntry as = Except.ok l →
          m.authors = some l) ∧
       (∀ p ps, b.publishers = some (p :: ps) → m.publisher = some p.name) ∧
       (∀ d y, b.publish_date = some d → findYear d = some y →
          m.published_date = some ⟨[[DPart.str y]]⟩) ∧
       (∀ n, b.number_of_pages = some n → m.page_count = some n)) ∧
    (∀ (isbn now : String) (r : IsbnResponses) (vi : GVolumeInfo)
       (rest : List GVolumeInfo) (m : Metadata),
       r.isbndbConfigured = false →
       r.google_books = some (vi :: rest) →
       fetch_isbn_metadata isbn now r = Except.ok m →
       (OLNoTitle r → ∀ t, vi.title = some t → m.title = some t) ∧
       (OLNoAuthors r → ∀ as l, vi.authors = some as →
          mapExcept splitNameAuthor as = Except.ok l → m.authors = some l) ∧
       (OLNoPublisher r → ∀ p, vi.publisher = some p → m.publisher = some p) ∧
       (OLNoDate r → ∀ d y, vi.publishedDate = some d → findYear d = some y →
          m.published_date = some ⟨[[DPart.str y]]⟩) ∧
       (OLNoPages r → ∀ n, vi.pageCount = some n → m.page_count = some n)) ∧
    (∀ (isbn now : String) (r : IsbnResponses) (b : ISBNdbBook) (m : Metadata),
       r.isbndbConfigured = true →
       r.isbndb = some b →
       fetch_isbn_metadata isbn now r = Except.ok m →
       (∀ t, b.title = some t → m.title = some t) ∧
       (∀ as l, b.authors = some as → mapExcept splitNameAuthor as = Except.ok l →
          m.authors = some l) ∧
       (∀ p, b.publisher = some p → m.publisher = some p) ∧
       (∀ d y, b.date_published = some d → findYear d = some y →
          m.published_date = some ⟨[[DPart.str y]]⟩) ∧
       (∀ n, b.pages = some n → m.page_count = some n)) := by
  refine ⟨?cr, ?dc, ?ol, ?google, ?idb⟩
  case cr =>
    intro doi now r msg m hc hf
    obtain ⟨m1, m2, h1, h2, hm⟩ := fetch_doi_decomp hf
    rw [hc] at h1
    obtain ⟨t0, ht0, hm1⟩ := crossrefStep_ok_shape h1
    obtain ⟨pd1, pa1, ppd1, ppub1, ppc1⟩ := dataciteStep_preserves h2
    obtain ⟨ut, ua, up, ud, _⟩ := unpaywallStep_core_fields r.unpaywall m2
    refine ⟨fun t ts htt => ?_, fun as has => ?_, fun p hp => ?_,
            fun d hd => ?_, fun d hd1 hd2 => ?_⟩
    · have : t0 = some t := by
        rw [crossrefTitle, htt] at ht0
        simp [pyIndex0, Except.map] at ht0
        exact ht0.symm
      subst this
      have hm1t : m1.title = some t := by rw [hm1]
      rw [hm, ut]
      exact pd1 t hm1t
    · have hm1a : m1.authors = some as := by
        rw [hm1]
        simp [has]
      rw [hm, ua]
      exact pa1 as hm1a
    · have hm1p : m1.publisher = some p := by
        rw [hm1]
        simp [hp]
      rw [hm, up, ppub1]
      exact hm1p
    · have hm1d : m1.published_date = some d := by
        rw [hm1]
        simp [crossrefDate, hd]
      rw [hm, ud]
      exact ppd1 d hm1d
    · have hm1d : m1.published_date = some d := by
        rw [hm1]
        simp [crossrefDate, hd1, hd2]
      rw [hm, ud]
      exact ppd1 d hm1d
  case dc =>
    intro doi now r att m hcr hdc hf
    obtain ⟨m1, m2, h1, h2, hm⟩ := fetch_doi_decomp hf
    rw [hcr, crossrefStep_none] at h1
    cases h1
    rw [hdc] at h2
    obtain ⟨t0?, ht0, hm2⟩ := dataciteStep_ok_shape h2
    obtain ⟨ut, ua, _, ud, _⟩ := unpaywallStep_core_fields r.unpaywall m2
    refine ⟨fun t0 ts htt => ?_, fun cs hcs => ?_, fun ds y hds hy => ?_⟩
    · have hval : dataciteTitle att (initDoiBag doi now) = Except.ok (some t0.title) := by
        simp [dataciteTitle, initDoiBag, htt, pyIndex0, Except.map]
      rw [hval] at ht0
      cases ht0
      rw [hm, ut, hm2]
    · rw [hm, ua, hm2]
      simp [dataciteAuthors, initDoiBag, hcs]
    · rw [hm, ud, hm2]
      simp [dataciteDate, initDoiBag, hds, hy]
  case ol =>
    intro isbn now r b m hcfg hol hf
    obtain ⟨m1, m2, m3, m4, h1, h2, h3, h4, hm⟩ := fetch_isbn_decomp hf
    rw [hol] at h1
    rw [hcfg, isbndbStep_off] at h4
    cases h4
    obtain ⟨as0, ha0, hm1⟩ := openlibraryStep_ok_shape h1
    obtain ⟨gt, ga, gp, gd, gn⟩ := googleStep_preserves h2
    obtain ⟨wt, wa, wp, wd, wn⟩ := worldcatStep_preserves h3
    refine ⟨fun t htt => ?_, fun as l has hmap => ?_, fun p ps hp => ?_,
            fun d y hd hy => ?_, fun n hn => ?_⟩
    · have hm1t : m1.title = some t := by
        rw [hm1]
        simp [olTitle, htt]
      rw [hm]
      show m3.title = some t
      exact wt t (gt t hm1t)
    · have hval : olAuthorsE b (initIsbnBag isbn now) = Except.ok (some l) := by
        simp [olAuthorsE, has, hmap, Except.map]
      rw [hval] at ha0
      cases ha0
      have hm1a : m1.authors = some l := by rw [hm1]
      rw [hm]
      show m3.authors = some l
      exact wa l (ga l hm1a)
    · have hm1p : m1.publisher = some p.name := by
        rw [hm1]
        simp [olPublisher, hp]
      rw [hm]
      show m3.publisher = some p.name
      exact wp p.name (gp p.name hm1p)
    · have hm1d : m1.published_date = some ⟨[[DPart.str y]]⟩ := by
        rw [hm1]
        simp [olDate, hd, hy]
      rw [hm]
      show m3.published_date = some ⟨[[DPart.str y]]⟩
      exact wd _ (gd _ hm1d)
    · have hm1n : m1.page_count = some n := by
        rw [hm1]
        simp [olPages, hn]
      rw [hm]
      show m3.page_count = some n
      rw [wn]
      exact gn n hm1n
  case google =>
    intro isbn now r vi rest m hcfg hg hf
    obtain ⟨m1, m2, m3, m4, h1, h2, h3, h4, hm⟩ := fetch_isbn_decomp hf
    rw [hcfg, isbndbStep_off] at h4
    cases h4
    obtain ⟨hT, hA, hP, hD, hN⟩ := olStep_absent_fields h1
    rw [hg] at h2
    obtain ⟨as1, ha1, hm2⟩ := googleStep_ok_shape h2
    obtain ⟨wt, wa, wp, wd, wn⟩ := worldcatStep_preserves h3
    refine ⟨fun hO t ht => ?_, fun hO as l has hmap => ?_, fun hO p hp => ?_,
            fun hO d y hd hy => ?_, fun hO n hn => ?_⟩
    · have hm2t : m2.title = some t := by
        rw [hm2]
        simp [gTitle, hT hO, ht]
      rw [hm]
      show m3.title = some t
      exact wt t hm2t
    · have hval : gAuthorsE vi m1 = Except.ok (some l) := by
        simp [gAuthorsE, hA hO, has, hmap, Except.map]
      rw [hval] at ha1
      cases ha1
      have hm2a : m2.authors = some l := by rw [hm2]
      rw [hm]
      show m3.authors = some l
      exact wa l hm2a
    · have hm2p : m2.publisher = some p := by
        rw [hm2]
        simp [gPublisher, hP hO, hp]
      rw [hm]
      show m3.publisher = some p
      exact wp p hm2p
    · have hm2d : m2.published_date = some ⟨[[DPart.str y]]⟩ := by
        rw [hm2]
        simp [gDate, hD hO, hd, hy]
      rw [hm]
      show m3.published_date = some ⟨[[DPart.str y]]⟩
      exact wd _ hm2d
    · have hm2n : m2.page_count = some n := by
        rw [hm2]
        simp [gPages, hN hO, hn]
      rw [hm]
      show m3.page_count = some n
      rw [wn]
      exact hm2n
  case idb =>
    intro isbn now r b m hcfg hidb hf
    obtain ⟨m1, m2, m3, m4, h1, h2, h3, h4, hm⟩ := fetch_isbn_decomp hf
    rw [hcfg, hidb] at h4
    obtain ⟨as4, ha4, hm4⟩ := isbndbStep_ok_shape h4
    refine ⟨fun t ht => ?_, fun as l has hmap => ?_, fun p hp => ?_,
            fun d y hd hy => ?_, fun n hn => ?_⟩
    · rw [hm, hm4]
      simp [idbTitle, ht]
    · have hval : idbAuthorsE b m3 = Except.ok (some l) := by
        simp [idbAuthorsE, has, hmap, Except.map]
      rw [hval] at ha4
      cases ha4
      rw [hm, hm4]
    · rw [hm, hm4]
      simp [idbPublisher, hp]
    · rw [hm, hm4]
      simp [idbDate, hd, hy]
    · rw [hm, hm4]
      simp [idbPages, hn]

/-- The run instantiating the amended claim C1: only Open Library
answers, supplying title A. -/
def c1WitnessResponses : IsbnResponses :=
  { openlibrary := some { title := some "A" } }

/-- The bag produced by the witness run of claim C1. -/
def c1WitnessBag : Metadata :=
  { identifier := "9780306406157", identifier_type := "isbn",
    sources := ["openlibrary"], retrieved_at := "T",
    title := some "A", type_ := some "book",
    openlibrary := some { title := some "A" } }

/-- Witness for the amended claim C1 at a concrete input. -/
theorem merge_first_writer_wins_amended_witness :
    fetch_isbn_metadata "9780306406157" "T" c1WitnessResponses
      = Except.ok c1WitnessBag ∧
    c1WitnessBag.title = some "A" := by
  constructor
  · rfl
  · exact (merge_first_writer_wins_amended.2.2.1 "9780306406157" "T" c1WitnessResponses
      { title := some "A" } c1WitnessBag rfl rfl (by rfl)).1 "A" rfl

/-- Claim C7: end-to-end DOI scenario.  The registry-of-record provider
returns title Quantum, one author with family Bell, a published-print
date 2009 and no raw type; DataCite and Unpaywall contribute nothing.
The canonical record is exactly the one of the claim, with the URL
synthesized as the standard resolver URL. -/
theorem doi_end_to_end_scenario :
    ∀ now : String,
      (fetch_doi_metadata "10.1038/nphys1170" now
          { crossref := some { title := some ["Quantum"],
                               author := some [{ family := some "Bell" }],
                               publishedPrint := some ⟨[[DPart.int 2009]]⟩ } }).bind
        convert_to_csl_json
      = Except.ok
          { id := "10.1038/nphys1170", type_ := "article-journal",
            title := some "Quantum",
            author := some [{ family := some "Bell" }],
            issued := some ⟨[[DPart.int 2009]]⟩,
            URL := some (some "https://doi.org/10.1038/nphys1170"),
            DOI := some "10.1038/nphys1170" } := by
  intro now
  rfl

/-- Claim C8: the DOI raw-type to canonical-type mapping is the fixed
closed lookup of the source, with the six sampled entries mapping as the
claim states and every key outside the table defaulting to
article-journal. -/
theorem crossref_type_mapping_closed :
    map_crossref_type_to_csl "journal-article" = "article-journal" ∧
    map_crossref_type_to_csl "dissertation" = "thesis" ∧
    map_crossref_type_to_csl "book-chapter" = "chapter" ∧
    map_crossref_type_to_csl "proceedings-article" = "paper-conference" ∧
    map_crossref_type_to_csl "dataset" = "dataset" ∧
    map_crossref_type_to_csl "posted-content" = "post" ∧
    ∀ t : String, t ∉ type_mapping.map Prod.fst →
      map_crossref_type_to_csl t = "article-journal" := by
  refine ⟨rfl, rfl, rfl, rfl, rfl, rfl, fun t ht => ?_⟩
  unfold map_crossref_type_to_csl
  rw [lookupStr_eq_none_of_not_mem ht]
  rfl

/-- Witness for claim C8 at the concrete unmapped raw type foobar. -/
theorem crossref_type_mapping_closed_witness :
    "foobar" ∉ type_mapping.map Prod.fst ∧
    map_crossref_type_to_csl "foobar" = "article-journal" := by
  refine ⟨by decide, ?_⟩
  exact crossref_type_mapping_closed.2.2.2.2.2.2 "foobar" (by decide)

/-- Claim C9: the Canonical Record Builder is deterministic and pure.
The builder is embedded as a function executed inside ambient process
state (clock value, service cache); the source of convert_to_csl_json and
the two conversion functions it dispatches to read only the bag, so the
result is independent of the ambient state, and two invocations on the
identical bag give identical records. -/
theorem builder_deterministic :
    ∀ (e₁ e₂ : Env) (m : Metadata),
      convert_to_csl_json_in_env e₁ m = convert_to_csl_json_in_env e₂ m ∧
      convert_to_csl_json_in_env e₁ m = convert_to_csl_json m := by
  intro e₁ e₂ m
  exact ⟨rfl, rfl⟩

/-- A minimal record used to exercise the rendering path. -/
def sampleCsl : CSL := { id := "item-1", type_ := "book" }

/-- A style-file source that succeeds for every style id, returning the
id itself as the file content. -/
def sampleDownload : String → Option String := fun sid => some sid

/-- A rendering engine that succeeds and echoes the style file content,
making the style actually used observable in the output. -/
def sampleEngine : String → String → CSL → Except String String :=
  fun content _ _ => Except.ok content

/-- Counterexample to claim C3: the style name klingon has no mapping,
yet format_citation does not fail with a style-not-found condition; it
silently resolves the unknown name to the default apa style sheet and
returns a citation rendered with it. -/
theorem unknown_style_silently_renders_apa :
    lookupStr STYLE_MAPPING "klingon" = none ∧
    resolveStyleId "klingon" = "apa" ∧
    format_citation sampleDownload sampleEngine sampleCsl "klingon" "plain"
      = FormatResult.rendered "apa" := by
  exact ⟨rfl, by decide, by decide⟩

/-- Claim C3 (amended): for every style name with no mapping to a known
style-sheet identifier, format_citation silently substitutes the default
apa style: the resolved style id is apa and, whenever the apa style file
is available, the outcome is identical to requesting the apa style,
whatever the engine, record and output format; when even the apa style
file is unavailable the error mentions the requested name but concerns
the substituted file, never a style-not-found failure for the unknown
name itself. -/
theorem unknown_style_defaults_amended :
    ∀ styleName : String, lookupStr STYLE_MAPPING (pyLower styleName) = none →
      resolveStyleId styleName = "apa" ∧
      ∀ (downloadStyle : String → Option String)
        (engine : String → String → CSL → Except String String)
        (csl : CSL) (outputFormat : String),
        (downloadStyle "apa" = none →
           format_citation downloadStyle engine csl styleName outputFormat
             = FormatResult.styleNotFound styleName) ∧
        (∀ content, downloadStyle "apa" = some content →
           format_citation downloadStyle engine csl styleName outputFormat
             = format_citation downloadStyle engine csl "apa" outputFormat) := by
  intro styleName h
  have hid : resolveStyleId styleName = "apa" := by
    unfold resolveStyleId
    rw [h]
    rfl
  have hapa : resolveStyleId "apa" = "apa" := by decide
  refine ⟨hid, fun downloadStyle engine csl outputFormat => ⟨fun hdl => ?_, fun content hdl => ?_⟩⟩
  · unfold format_citation
    rw [hid]
    dsimp only
    rw [hdl]
  · unfold format_citation
    rw [hid, hapa]
    dsimp only
    rw [hdl]

/-- Witness for the amended claim C3 at the concrete unmapped name
klingon. -/
theorem unknown_style_defaults_amended_witness :
    lookupStr STYLE_MAPPING (pyLower "klingon") = none ∧
    resolveStyleId "klingon" = "apa" ∧
    format_citation sampleDownload sampleEngine sampleCsl "klingon" "plain"
      = format_citation sampleDownload sampleEngine sampleCsl "apa" "plain" := by
  refine ⟨by decide, ?_, ?_⟩
  · exact (unknown_style_defaults_amended "klingon" (by decide)).1
  · exact ((unknown_style_defaults_amended "klingon" (by decide)).2
      sampleDownload sampleEngine sampleCsl "plain").2 "apa" rfl

/-! # Totality of the aggregation under schema-conforming payloads -/

/-- Whether an Except computation succeeded (no Python exception). -/
def isOkE : Except String α → Bool
  | Except.ok _ => true
  | Except.error _ => false

theorem exists_of_isOkE {e : Except String α} (h : isOkE e = true) :
    ∃ a, e = Except.ok a := by
  cases e with
  | ok a => exact ⟨a, rfl⟩
  | error msg => simp [isOkE] at h

theorem isOkE_map (f : α → β) (e : Except String α) :
    isOkE (Except.map f e) = isOkE e := by
  cases e <;> rfl

theorem splitNameAuthor_isOk {s : String} (h : nameOk s = true) :
    isOkE (splitNameAuthor s) = true := by
  unfold nameOk at h
  by_cases hc : pyContains s ' '
  · rw [hc] at h
    simp at h
    rcases hsp : pySplitWs s with _ | ⟨w, ws⟩
    · rw [hsp] at h
      simp at h
    · simp [splitNameAuthor, hc, hsp, pyLast, bind, Except.bind, isOkE]
  · simp [splitNameAuthor, hc, isOkE]

theorem wcAuthorEntry_isOk {seg : String} (h : nameOk (pyStrip seg) = true) :
    isOkE (wcAuthorEntry seg) = true := by
  unfold nameOk at h
  by_cases hc : pyContains (pyStrip seg) ' '
  · rw [hc] at h
    simp at h
    rcases hsp : pySplitWs (pyStrip seg) with _ | ⟨w, ws⟩
    · rw [hsp] at h
      simp at h
    · simp [wcAuthorEntry, hc, hsp, pyLast, bind, Except.bind, isOkE]
  · simp [wcAuthorEntry, hc, isOkE]

theorem mapExcept_isOk {f : α → Except String β} {l : List α}
    (h : ∀ x ∈ l, isOkE (f x) = true) : isOkE (mapExcept f l) = true := by
  induction l with
  | nil => rfl
  | cons a as ih =>
      obtain ⟨y, hy⟩ := exists_of_isOkE (h a (List.mem_cons_self a as))
      obtain ⟨l', hl'⟩ := exists_of_isOkE (ih (fun x hx => h x (List.mem_cons_of_mem a hx)))
      simp [mapExcept, hy, hl', bind, Except.bind, isOkE]

theorem crossrefStep_isOk {msg? : Option CrossrefMsg} (m : Metadata)
    (h : (match msg? with
          | some msg => (match msg.title with
                         | some ts => !ts.isEmpty
                         | none => true)
          | none => true) = true) :
    isOkE (crossrefStep msg? m) = true := by
  rcases msg? with _ | msg
  · rfl
  · dsimp only at h
    simp only [crossrefStep, isOkE_map]
    rcases ht : msg.title with _ | (_ | ⟨t, ts⟩)
    · simp [crossrefTitle, ht, isOkE]
    · rw [ht] at h
      simp at h
    · simp [crossrefTitle, ht, pyIndex0, isOkE_map, isOkE, Except.map]

theorem dataciteStep_isOk {att? : Option DCAttrs} (m : Metadata)
    (h : (match att? with
          | some att => (match att.titles with
                         | some ts => !ts.isEmpty
                         | none => true)
          | none => true) = true) :
    isOkE (dataciteStep att? m) = true := by
  rcases att? with _ | att
  · rfl
  · dsimp only at h
    simp only [dataciteStep, isOkE_map]
    rcases hm : m.title with _ | t
    · rcases ht : att.titles with _ | (_ | ⟨t0, ts⟩)
      · simp [dataciteTitle, hm, ht, isOkE]
      · rw [ht] at h
        simp at h
      · simp [dataciteTitle, hm, ht, pyIndex0, isOkE_map, isOkE, Except.map]
    · simp [dataciteTitle, hm, isOkE]

theorem openlibraryStep_isOk {b? : Option OLBook} (m : Metadata)
    (h : (match b? with
          | some b => (match b.authors with
                       | some as => as.all (fun a => nameOk (a.name.getD ""))
                       | none => true)
          | none => true) = true) :
    isOkE (openlibraryStep b? m) = true := by
  rcases b? with _ | b
  · rfl
  · dsimp only at h
    simp only [openlibraryStep, isOkE_map]
    rcases ha : b.authors with _ | as
    · simp [olAuthorsE, ha, isOkE]
    · rw [ha] at h
      simp only [olAuthorsE, ha, isOkE_map]
      refine mapExcept_isOk (fun a hx => ?_)
      refine splitNameAuthor_isOk ?_
      rw [List.all_eq_true] at h
      exact h a hx

theorem googleStep_isOk {items? : Option (List GVolumeInfo)} (m : Metadata)
    (h : (match items? with
          | some (vi :: _) => (match vi.authors with
                               | some as => as.all nameOk
                               | none => true)
          | _ => true) = true) :
    isOkE (googleStep items? m) = true := by
  rcases items? with _ | (_ | ⟨vi, rest⟩)
  · rfl
  · rfl
  · dsimp only at h
    simp only [googleStep, isOkE_map]
    rcases hma : m.authors with _ | a
    · rcases ha : vi.authors with _ | as
      · simp [gAuthorsE, hma, ha, isOkE]
      · rw [ha] at h
        simp only [gAuthorsE, hma, ha, isOkE_map]
        refine mapExcept_isOk (fun x hx => ?_)
        refine splitNameAuthor_isOk ?_
        rw [List.all_eq_true] at h
        exact h x hx
    · simp [gAuthorsE, hma, isOkE]

theorem worldcatStep_isOk {list? : Option (List WCBook)} (m : Metadata)
    (h : (match list? with
          | some (b :: _) => (match b.author with
                              | some s => wcAuthorOk s
                              | none => true)
          | _ => true) = true) :
    isOkE (worldcatStep list? m) = true := by
  rcases list? with _ | (_ | ⟨b, rest⟩)
  · rfl
  · rfl
  · dsimp only at h
    simp only [worldcatStep, isOkE_map]
    rcases hma : m.authors with _ | a
    · rcases ha : b.author with _ | s
      · simp [wcAuthorsE, hma, ha, isOkE]
      · rw [ha] at h
        simp only [wcAuthorsE, hma, ha, isOkE_map]
        refine mapExcept_isOk (fun x hx => ?_)
        refine wcAuthorEntry_isOk ?_
        unfold wcAuthorOk at h
        rw [List.all_eq_true] at h
        exact h x hx
    · simp [wcAuthorsE, hma, isOkE]

theorem isbndbStep_isOk {configured : Bool} {b? : Option ISBNdbBook} (m : Metadata)
    (h : (match configured, b? with
          | true, some b => (match b.authors with
                             | some as => as.all nameOk
                             | none => true)
          | _, _ => true) = true) :
    isOkE (isbndbStep configured b? m) = true := by
  rcases configured with _ | _
  · rfl
  · rcases b? with _ | b
    · rfl
    · dsimp only at h
      simp only [isbndbStep, if_pos, isOkE_map]
      rcases ha : b.authors with _ | as
      · simp [idbAuthorsE, ha, isOkE]
      · rw [ha] at h
        simp only [idbAuthorsE, ha, isOkE_map]
        refine mapExcept_isOk (fun x hx => ?_)
        refine splitNameAuthor_isOk ?_
        rw [List.all_eq_true] at h
        exact h x hx

theorem fetch_doi_isOk {doi now : String} {r : DoiResponses}
    (h : doiSchemaOk r = true) : isOkE (fetch_doi_metadata doi now r) = true := by
  unfold doiSchemaOk at h
  rw [Bool.and_eq_true] at h
  obtain ⟨hc, hd⟩ := h
  obtain ⟨m1, hm1⟩ := exists_of_isOkE (crossrefStep_isOk (initDoiBag doi now) hc)
  obtain ⟨m2, hm2⟩ := exists_of_isOkE (dataciteStep_isOk m1 hd)
  simp [fetch_doi_metadata, bind, Except.bind, hm1, hm2, isOkE]

theorem fetch_isbn_isOk {isbn now : String} {r : IsbnResponses}
    (h : isbnSchemaOk r = true) : isOkE (fetch_isbn_metadata isbn now r) = true := by
  unfold isbnSchemaOk at h
  simp only [Bool.and_eq_true] at h
  obtain ⟨⟨⟨h1, h2⟩, h3⟩, h4⟩ := h
  obtain ⟨m1, hm1⟩ := exists_of_isOkE (openlibraryStep_isOk (initIsbnBag isbn now) h1)
  obtain ⟨m2, hm2⟩ := exists_of_isOkE (googleStep_isOk m1 h2)
  obtain ⟨m3, hm3⟩ := exists_of_isOkE (worldcatStep_isOk m2 h3)
  obtain ⟨m4, hm4⟩ := exists_of_isOkE (isbndbStep_isOk m3 h4)
  simp [fetch_isbn_metadata, bind, Except.bind, hm1, hm2, hm3, hm4, isOkE]

/-- Counterexample to claim C2: a well-formed Crossref payload whose
message carries an empty title array makes the aggregation raise
IndexError (data_fetcher.py line 225 indexes the array without a length
check) instead of returning a bag. -/
theorem aggregation_raises_on_empty_title :
    fetch_doi_metadata "10.1/x" "T" { crossref := some { title := some [] } }
      = Except.error "IndexError" := rfl

/-- Claim C2 (amended): aggregation of a classified identifier never
fails provided provider payloads conform to the provider schemas (title
arrays non-empty when present; author names that yield at least one
token for the split heuristic); with no provider responses at all it
returns the explicitly empty bag whose sources list is empty.  For fully
arbitrary well-formed JSON payloads the claim fails, as the empty-title
counterexample shows. -/
theorem aggregation_never_fails_amended :
    (∀ doi now : String,
       fetch_doi_metadata doi now {} = Except.ok (initDoiBag doi now) ∧
       (initDoiBag doi now).sources = []) ∧
    (∀ (isbn now : String) (cfg : Bool),
       fetch_isbn_metadata isbn now { isbndbConfigured := cfg }
         = Except.ok { initIsbnBag isbn now with type_ := some "book" } ∧
       ({ initIsbnBag isbn now with type_ := some "book" } : Metadata).sources = []) ∧
    (∀ (doi now : String) (r : DoiResponses), doiSchemaOk r = true →
       isOkE (fetch_doi_metadata doi now r) = true) ∧
    (∀ (isbn now : String) (r : IsbnResponses), isbnSchemaOk r = true →
       isOkE (fetch_isbn_metadata isbn now r) = true) := by
  refine ⟨fun doi now => ⟨rfl, rfl⟩, fun isbn now cfg => ⟨?_, rfl⟩,
          fun doi now r h => fetch_doi_isOk h,
          fun isbn now r h => fetch_isbn_isOk h⟩
  rcases cfg with _ | _ <;> rfl

/-- A schema-conforming run used as witness for the amended claim C2. -/
def c2WitnessResponses : IsbnResponses :=
  { openlibrary := some { title := some "A",
                          authors := some [{ name := some "John Smith" }] },
    worldcat := some [{ author := some "A B; C D" }],
    isbndbConfigured := true,
    isbndb := some { authors := some ["Jane Roe"] } }

/-- Witness for the amended claim C2 at concrete schema-conforming
inputs. -/
theorem aggregation_never_fails_amended_witness :
    (doiSchemaOk { crossref := some { title := some ["T1"] } } = true ∧
     isOkE (fetch_doi_metadata "10.1/x" "T"
       { crossref := some { title := some ["T1"] } }) = true) ∧
    (isbnSchemaOk c2WitnessResponses = true ∧
     isOkE (fetch_isbn_metadata "9780306406157" "T" c2WitnessResponses) = true) := by
  refine ⟨⟨by decide, ?_⟩, ⟨by decide, ?_⟩⟩
  · exact aggregation_never_fails_amended.2.2.1 "10.1/x" "T"
      { crossref := some { title := some ["T1"] } } (by decide)
  · exact aggregation_never_fails_amended.2.2.2 "9780306406157" "T"
      c2WitnessResponses (by decide)

/-! # Lemmas about the canonical record builder -/

theorem convert_doi_URL {m : Metadata} {c : CSL}
    (h : convert_doi_metadata_to_csl m = Except.ok c) :
    c.URL = some (match m.open_access_url with
                  | some v => v
                  | none => some ("https://doi.org/" ++ m.identifier)) := by
  simp only [convert_doi_metadata_to_csl] at h
  rcases ht : convertDoiTitle m with e | t? <;> rw [ht] at h <;>
    simp [Except.map] at h
  rw [← h]

theorem convert_doi_type {m : Metadata} {c : CSL}
    (h : convert_doi_metadata_to_csl m = Except.ok c) :
    c.type_ = (match m.crossref with
               | some msg =>
                   match msg.type_ with
                   | some t => map_crossref_type_to_csl t
                   | none => "article-journal"
               | none => "article-journal") := by
  simp only [convert_doi_metadata_to_csl] at h
  rcases ht : convertDoiTitle m with e | t? <;> rw [ht] at h <;>
    simp [Except.map] at h
  rw [← h]

theorem convert_doi_id {m : Metadata} {c : CSL}
    (h : convert_doi_metadata_to_csl m = Except.ok c) :
    c.id = m.identifier := by
  simp only [convert_doi_metadata_to_csl] at h
  rcases ht : convertDoiTitle m with e | t? <;> rw [ht] at h <;>
    simp [Except.map] at h
  rw [← h]

theorem map_type_vocab (t : String) :
    map_crossref_type_to_csl t ∈ cslTypeVocabulary := by
  unfold map_crossref_type_to_csl
  rcases h : lookupStr type_mapping t with _ | v
  · decide
  · simp only [Option.getD]
    have hall : ∀ x ∈ type_mapping.map Prod.snd, x ∈ cslTypeVocabulary := by decide
    exact hall v (lookupStr_mem_values h)

/-- Claim C4: whenever the open-access-location provider reports an
open-access copy with a URL, the canonical DOI record URL equals that
open-access URL, replacing the synthesized resolver URL, for every
combination of registry responses. -/
theorem open_access_url_overrides :
    ∀ (doi now : String) (r : DoiResponses) (u : Unpaywall) (loc : OALoc)
      (url : String) (m : Metadata) (c : CSL),
      r.unpaywall = some u → u.is_oa = some true →
      u.best_oa_location = some (some loc) → loc.url = some url →
      fetch_doi_metadata doi now r = Except.ok m →
      convert_doi_metadata_to_csl m = Except.ok c →
      c.URL = some (some url) := by
  intro doi now r u loc url m c hu hoa hloc hurl hf hc
  obtain ⟨m1, m2, h1, h2, hm⟩ := fetch_doi_decomp hf
  have hoau : m.open_access_url = some (some url) := by
    rw [hm, hu, unpaywallStep_sets_oau m2 hoa hloc, hurl]
  rw [convert_doi_URL hc, hoau]

/-- The run of the claim C4 example: DOI 10.1/x, whose resolver URL is
the registry URL of the example, with an open-access copy at
repo.example. -/
def c4Responses : DoiResponses :=
  { unpaywall := some
      { is_oa := some true,
        best_oa_location := some (some { url := some "https://repo.example/pdf" }) } }

/-- Witness for claim C4 at the concrete example of the claim. -/
theorem open_access_url_overrides_witness :
    ∃ m c, fetch_doi_metadata "10.1/x" "T" c4Responses = Except.ok m ∧
      convert_doi_metadata_to_csl m = Except.ok c ∧
      c.URL = some (some "https://repo.example/pdf") := by
  refine ⟨_, _, rfl, rfl, ?_⟩
  exact open_access_url_overrides "10.1/x" "T" c4Responses _ _
    "https://repo.example/pdf" _ _ rfl rfl rfl rfl rfl rfl

/-- Counterexample to claim C5: the pipeline applied to an unrecognized
identifier produces a canonical record whose type is article, which is
outside the closed vocabulary the claim asserts for every bag shape the
builder accepts. -/
theorem unknown_identifier_yields_type_article :
    ((fetch_metadata "not-an-id" "T" {} {}).bind convert_to_csl_json).map CSL.type_
      = Except.ok "article" ∧
    "article" ∉ cslTypeVocabulary := by
  exact ⟨rfl, by decide⟩

/-- Claim C5 (amended): for every bag whose identifier type is doi or
isbn, the canonical record type belongs to the closed vocabulary and its
id is the bag identifier, hence non-empty whenever the identifier is;
the bag of an unrecognized identifier is the exception the
counterexample forces, receiving the out-of-vocabulary type article. -/
theorem builder_type_vocab_amended :
    ∀ (m : Metadata) (c : CSL),
      (m.identifier_type = "doi" ∨ m.identifier_type = "isbn") →
      convert_to_csl_json m = Except.ok c →
      c.type_ ∈ cslTypeVocabulary ∧ c.id = m.identifier ∧
      (m.identifier ≠ "" → c.id ≠ "") := by
  intro m c hty hc
  rcases hty with h | h
  · rw [convert_to_csl_json, if_pos h] at hc
    refine ⟨?_, convert_doi_id hc, fun hne => ?_⟩
    · rw [convert_doi_type hc]
      rcases m.crossref with _ | msg
      · decide
      · dsimp only
        rcases msg.type_ with _ | t
        · decide
        · dsimp only
          exact map_type_vocab t
    · rw [convert_doi_id hc]
      exact hne
  · have hne : ¬ m.identifier_type = "doi" := by
      rw [h]
      decide
    rw [convert_to_csl_json, if_neg hne, if_pos h] at hc
    cases hc
    refine ⟨?_, rfl, fun hne2 => hne2⟩
    show "book" ∈ cslTypeVocabulary
    decide

/-- A minimal ISBN bag used as witness input for the amended claim C5. -/
def c5WitnessBag : Metadata :=
  { identifier := "9780306406157", identifier_type := "isbn", retrieved_at := "T" }

/-- Witness for the amended claim C5 at a concrete ISBN bag. -/
theorem builder_type_vocab_amended_witness :
    ∃ c, convert_to_csl_json c5WitnessBag = Except.ok c ∧
      c.type_ ∈ cslTypeVocabulary ∧ c.id = "9780306406157" ∧ c.id ≠ "" := by
  refine ⟨_, rfl, ?_, ?_, ?_⟩
  · exact (builder_type_vocab_amended c5WitnessBag _ (Or.inr rfl) rfl).1
  · exact (builder_type_vocab_amended c5WitnessBag _ (Or.inr rfl) rfl).2.1
  · exact (builder_type_vocab_amended c5WitnessBag _ (Or.inr rfl) rfl).2.2 (by decide)

/-! # Disjointness of the DOI and ISBN validators (claim C10) -/

theorem isbn_chars {l : List Char} (h : isValidIsbnL l = true) :
    ∀ c ∈ l.filter isbnKeepChar, c.isDigit = true ∨ c.toUpper = 'X' := by
  intro c hc
  simp only [isValidIsbnL] at h
  by_cases h10 : (l.filter isbnKeepChar).length = 10
  · rw [if_pos h10, Bool.and_eq_true] at h
    obtain ⟨hd, hl⟩ := h
    have hne : l.filter isbnKeepChar ≠ [] := by
      intro he
      rw [he] at h10
      simp at h10
    have hsplit := List.dropLast_append_getLast hne
    rw [← hsplit] at hc
    rcases List.mem_append.mp hc with h1 | h2
    · left
      exact List.all_eq_true.mp hd c h1
    · have hcl : c = (l.filter isbnKeepChar).getLast hne := by simpa using h2
      subst hcl
      rw [List.getLast?_eq_getLast _ hne] at hl
      simp only [Bool.or_eq_true, decide_eq_true_eq] at hl
      rcases hl with hx | hdig
      · right
        exact hx
      · left
        exact hdig
  · rw [if_neg h10] at h
    by_cases h13 : (l.filter isbnKeepChar).length = 13
    · rw [if_pos h13] at h
      left
      exact List.all_eq_true.mp h c hc
    · rw [if_neg h13] at h
      cases h

theorem doi_dot_in_filter {l : List Char} (hd : isValidDoiL l = true) :
    '.' ∈ l.filter isbnKeepChar := by
  rcases l with _ | ⟨c1, _ | ⟨c2, _ | ⟨c3, rest⟩⟩⟩ <;> simp [isValidDoiL] at hd
  obtain ⟨⟨⟨h1, h2⟩, h3⟩, _⟩ := hd
  subst h3
  refine List.mem_filter.mpr ⟨?_, by decide⟩
  simp

theorem doi_isbn_disjoint {l : List Char} (hd : isValidDoiL l = true) :
    isValidIsbnL l = false := by
  cases hi : isValidIsbnL l
  · rfl
  · have := isbn_chars hi '.' (doi_dot_in_filter hd)
    rcases this with h | h
    · simp at h
    · simp at h

/-- Claim C10: no string is accepted both as a valid DOI and as a valid
ISBN (every valid DOI carries the dot of its mandatory 10. prefix, which
survives the hyphen and whitespace stripping of the ISBN check and is
neither a digit nor an X), so the classifier yields the same result
whichever validity check runs first. -/
theorem doi_isbn_patterns_disjoint :
    ∀ s : String,
      (is_valid_doi s && is_valid_isbn s) = false ∧
      identify_identifier_type s = identifyIsbnFirst s := by
  intro s
  constructor
  · cases hd : is_valid_doi s
    · simp
    · simp only [Bool.true_and]
      exact doi_isbn_disjoint hd
  · unfold identify_identifier_type identifyIsbnFirst
    cases hd : isValidDoiL (cleanIdL s.data)
    · simp [hd]
    · have hi : isValidIsbnL (cleanIdL s.data) = false := doi_isbn_disjoint hd
      simp [hd, hi]

/-! # Normalization of ISBN-shaped inputs (claim C6) -/

/-- No leading and no trailing whitespace. -/
def noSurroundingWs (l : List Char) : Bool :=
  (match l.head? with
   | some c => !c.isWhitespace
   | none => true) &&
  (match l.getLast? with
   | some c => !c.isWhitespace
   | none => true)

theorem head?_dropWhile_not (p : α → Bool) (l : List α) {c : α}
    (h : (l.dropWhile p).head? = some c) : p c = false := by
  induction l with
  | nil => simp [List.dropWhile] at h
  | cons a as ih =>
      by_cases hp : p a
      · rw [List.dropWhile_cons_of_pos hp] at h
        exact ih h
      · rw [List.dropWhile_cons_of_neg hp] at h
        simp only [List.head?_cons, Option.some.injEq] at h
        subst h
        simpa using hp

theorem getLast?_dropWhile_ne_nil (p : α → Bool) (l : List α)
    (h : l.dropWhile p ≠ []) : (l.dropWhile p).getLast? = l.getLast? := by
  conv_rhs => rw [← List.takeWhile_append_dropWhile p l]
  rw [List.getLast?_append_of_ne_nil _ h]

theorem pyStripL_trimmed (l : List Char) : noSurroundingWs (pyStripL l) = true := by
  unfold noSurroundingWs pyStripL
  rw [Bool.and_eq_true]
  constructor
  · rw [List.head?_reverse]
    rcases hyl : ((l.dropWhile Char.isWhitespace).reverse.dropWhile Char.isWhitespace).getLast?
      with _ | c
    · simp
    · have hYne : (l.dropWhile Char.isWhitespace).reverse.dropWhile Char.isWhitespace ≠ [] := by
        intro he
        rw [he] at hyl
        simp at hyl
      rw [getLast?_dropWhile_ne_nil _ _ hYne, List.getLast?_reverse] at hyl
      have hw := head?_dropWhile_not Char.isWhitespace l hyl
      simp [hw]
  · rw [List.getLast?_reverse]
    rcases hyh : ((l.dropWhile Char.isWhitespace).reverse.dropWhile Char.isWhitespace).head?
      with _ | c
    · simp
    · have hw := head?_dropWhile_not Char.isWhitespace (l.dropWhile Char.isWhitespace).reverse hyh
      simp [hw]

theorem cleanIdL_trimmed (l : List Char) : noSurroundingWs (cleanIdL l) = true := by
  unfold cleanIdL
  exact pyStripL_trimmed _

theorem filter_dropWhile_ws (l : List Char) :
    (l.dropWhile Char.isWhitespace).filter isbnKeepChar = l.filter isbnKeepChar := by
  induction l with
  | nil => rfl
  | cons a as ih =>
      by_cases hw : a.isWhitespace
      · rw [List.dropWhile_cons_of_pos hw, ih]
        have hk : isbnKeepChar a = false := by simp [isbnKeepChar, hw]
        simp [List.filter_cons, hk]
      · rw [List.dropWhile_cons_of_neg hw]

theorem filter_pyStrip (l : List Char) :
    (pyStripL l).filter isbnKeepChar = l.filter isbnKeepChar := by
  unfold pyStripL
  rw [List.filter_reverse, filter_dropWhile_ws, List.filter_reverse, List.reverse_reverse,
    filter_dropWhile_ws]

theorem filter_isbnKeep_idem (l : List Char) :
    (l.filter isbnKeepChar).filter isbnKeepChar = l.filter isbnKeepChar :=
  List.filter_eq_self.mpr (fun _ ha => (List.mem_filter.mp ha).2)

theorem isValidIsbnL_congr {l l' : List Char}
    (h : l.filter isbnKeepChar = l'.filter isbnKeepChar) :
    isValidIsbnL l = isValidIsbnL l' := by
  unfold isValidIsbnL
  rw [h]

theorem isbn_prefix_with_h_false {l : List Char} (h : isValidIsbnL l = true)
    {pre : List Char} (hp : pre.isPrefixOf l = true) (hh : 'h' ∈ pre) : False := by
  rw [List.isPrefixOf_iff_prefix] at hp
  obtain ⟨t2, ht⟩ := hp
  have hmem : 'h' ∈ l := by
    rw [← ht]
    exact List.mem_append_left _ hh
  have hf : 'h' ∈ l.filter isbnKeepChar := List.mem_filter.mpr ⟨hmem, by decide⟩
  rcases isbn_chars h 'h' hf with hc | hc <;> simp at hc

theorem cleanIdL_of_isbn {l : List Char} (h : isValidIsbnL l = true) :
    cleanIdL l = pyStripL (if startsDigitsThenSep l then l.filter isbnKeepChar else l) := by
  have h1 : ("http://".toList.isPrefixOf l) = false := by
    cases hb : "http://".toList.isPrefixOf l
    · rfl
    · exact (isbn_prefix_with_h_false h hb (by decide)).elim
  have h2 : ("https://".toList.isPrefixOf l) = false := by
    cases hb : "https://".toList.isPrefixOf l
    · rfl
    · exact (isbn_prefix_with_h_false h hb (by decide)).elim
  unfold cleanIdL
  rw [h1, h2]
  rfl

theorem identify_isbn {s : String} (h : is_valid_isbn s = true) :
    identify_identifier_type s = some "isbn" := by
  have h' : isValidIsbnL s.data = true := h
  have hfilters : (cleanIdL s.data).filter isbnKeepChar = s.data.filter isbnKeepChar := by
    rw [cleanIdL_of_isbn h']
    by_cases hsd : startsDigitsThenSep s.data = true
    · rw [if_pos hsd, filter_pyStrip, filter_isbnKeep_idem]
    · rw [if_neg hsd, filter_pyStrip]
  have hisbn : isValidIsbnL (cleanIdL s.data) = true := by
    rw [isValidIsbnL_congr hfilters]
    exact h
  have hdoi : isValidDoiL (cleanIdL s.data) = false := by
    cases hd : isValidDoiL (cleanIdL s.data)
    · rfl
    · rw [doi_isbn_disjoint hd] at hisbn
      cases hisbn
  unfold identify_identifier_type
  simp [hdoi, hisbn]

theorem cleanIdL_all_keep_of_sds {l : List Char} (h : isValidIsbnL l = true)
    (hs : startsDigitsThenSep l = true) :
    (cleanIdL l).all isbnKeepChar = true := by
  rw [cleanIdL_of_isbn h, if_pos hs]
  rw [List.all_eq_true]
  intro c hc
  have hsub : c ∈ l.filter isbnKeepChar := by
    unfold pyStripL at hc
    rw [List.mem_reverse] at hc
    have hc2 := (List.dropWhile_sublist _).subset hc
    rw [List.mem_reverse] at hc2
    exact (List.dropWhile_sublist _).subset hc2
  exact (List.mem_filter.mp hsub).2

/-- Counterexample to claim C6: the ISBN-shaped input with a leading
space keeps its hyphens after cleaning, because the separator-stripping
branch of clean_identifier fires only when the raw string begins with a
digit; classification still returns ISBN. -/
theorem isbn_cleaning_keeps_hyphens :
    is_valid_isbn " 0-306-40615-2" = true ∧
    identify_identifier_type " 0-306-40615-2" = some "isbn" ∧
    '-' ∈ (clean_identifier " 0-306-40615-2").data := by
  exact ⟨by decide, by decide, by decide⟩

/-- Claim C6 (amended): for every string of the ISBN shape, possibly
with hyphens or spaces interspersed and surrounding whitespace,
classification returns kind ISBN and the cleaned identifier carries no
surrounding whitespace; interior hyphens and spaces, however, are
removed only when the raw string begins with a digit run followed by a
hyphen or whitespace character (the counterexample with a leading space
keeps them). -/
theorem isbn_classification_amended :
    ∀ s : String, is_valid_isbn s = true →
      identify_identifier_type s = some "isbn" ∧
      noSurroundingWs (clean_identifier s).data = true ∧
      (startsDigitsThenSep s.data = true →
        (clean_identifier s).data.all isbnKeepChar = true) := by
  intro s h
  refine ⟨identify_isbn h, ?_, fun hs => ?_⟩
  · exact cleanIdL_trimmed s.data
  · exact @cleanIdL_all_keep_of_sds s.data h hs

/-- Witness for the amended claim C6 at a hyphenated ISBN-13 starting
with a digit. -/
theorem isbn_classification_amended_witness :
    is_valid_isbn "978-0-306-40615-7" = true ∧
    identify_identifier_type "978-0-306-40615-7" = some "isbn" ∧
    noSurroundingWs (clean_identifier "978-0-306-40615-7").data = true ∧
    (clean_identifier "978-0-306-40615-7").data.all isbnKeepChar = true := by
  have h := isbn_classification_amended "978-0-306-40615-7" (by decide)
  exact ⟨by decide, h.1, h.2.1, h.2.2 (by decide)⟩
